import Mathlib

/-
  Verification of the Talk-genius presentation-coaching backend.

  Shallow embedding of the Python modules
    services/scoring_engine.py
    services/realtime_feedback.py
    utils/posture_analyzer.py   (data-aggregation part)
    utils/speech_analyzer.py
  over exact rational arithmetic (Python floats are idealised as ℚ).
  Python `round(x, n)` is banker's rounding, modelled by `roundHalfEven`;
  `int(x)` truncates toward zero, modelled by `pyTrunc`.
  A Python division is modelled by the checked division `div?`, and a
  function whose body divides returns `Option`; `none` corresponds to an
  uncaught ZeroDivisionError.
-/

namespace TalkGenius

/-- Banker's rounding (round half to even) of a rational to an integer,
the idealisation of Python's built-in `round(x)`. -/
def roundHalfEven (q : ℚ) : ℤ :=
  let f := ⌊q⌋
  let r := q - (f : ℚ)
  if r < 1/2 then f
  else if 1/2 < r then f + 1
  else if f % 2 = 0 then f else f + 1

/-- Python `round(x, 1)`. -/
def pyRound1 (q : ℚ) : ℚ := (roundHalfEven (q * 10) : ℚ) / 10

/-- Python `round(x, 2)`. -/
def pyRound2 (q : ℚ) : ℚ := (roundHalfEven (q * 100) : ℚ) / 100

/-- Python `int(x)`: truncation toward zero. -/
def pyTrunc (q : ℚ) : ℤ := if 0 ≤ q then ⌊q⌋ else ⌈q⌉

/-- Checked division: `none` models a Python ZeroDivisionError. -/
def div? (a b : ℚ) : Option ℚ := if b = 0 then none else some (a / b)

/-- Mean of a list of rationals (np.mean), checked. -/
def mean? (l : List ℚ) : Option ℚ := div? l.sum l.length

/-- Value lookup in an association list modelling a Python dict read
`d[k]` (0 for a missing key, which never occurs on the modelled paths). -/
def wget : List (String × ℚ) → String → ℚ
  | [], _ => 0
  | (a, v) :: t, k => if a = k then v else wget t k

/-- Lookup in an association list modelling a Python dict
(`d.get(k)` / `k in d`). -/
def alistGet {α β : Type} [DecidableEq α] : List (α × β) → α → Option β
  | [], _ => none
  | (a, b) :: t, k => if a = k then some b else alistGet t k

/-- Key update of an association-list dict: Python `d[k] = v` keeps the
insertion position of an existing key and appends a new one. -/
def alistSet {α β : Type} [DecidableEq α] : List (α × β) → α → β → List (α × β)
  | [], k, v => [(k, v)]
  | (a, b) :: t, k, v => if a = k then (a, v) :: t else (a, b) :: alistSet t k v

/-- In-place value update `f` of the entry at key `k` (Python mutating
`d[k]`); no effect when the key is absent. -/
def alistMod {α β : Type} [DecidableEq α] : List (α × β) → α → (β → β) → List (α × β)
  | [], _, _ => []
  | (a, b) :: t, k, f => if a = k then (a, f b) :: t else (a, b) :: alistMod t k f

/-- Python `del d[k]`, which raises KeyError when the key is absent. -/
def alistDel? {α β : Type} [DecidableEq α] : List (α × β) → α → Option (List (α × β))
  | [], _ => none
  | (a, b) :: t, k =>
    if a = k then some t
    else (alistDel? t k).map ((a, b) :: ·)

/-- Sum of the values of an association list (`sum(d.values())`). -/
def sumVals (l : List (String × ℚ)) : ℚ := (l.map Prod.snd).sum

/-! ### Data model of the analysis dictionaries

Python dicts that always carry the same keys are modelled as structures;
a dict key that is absent is indistinguishable from the default that
every `.get(key, default)` read supplies, hence plain fields. -/

/-- Posture breakdown dict of `posture_analyzer._calculate_summary_stats`. -/
structure Breakdown3 where
  good_percentage : ℚ
  okay_percentage : ℚ
  bad_percentage : ℚ
deriving DecidableEq

/-- Eye-contact breakdown dict of `posture_analyzer._calculate_summary_stats`. -/
structure EyeBreakdown where
  good_percentage : ℚ
  moderate_percentage : ℚ
  poor_percentage : ℚ
deriving DecidableEq

/-- The `summary` dict produced by the posture analyzer. -/
structure PostureSummary where
  average_posture_score : ℚ
  average_eye_contact_score : ℚ
  posture_breakdown : Breakdown3
  eye_contact_breakdown : EyeBreakdown
  total_recording_seconds : ℕ
deriving DecidableEq

/-- One second's bucket in `second_by_second` of
`posture_analyzer.process_posture_data`. -/
structure Bucket where
  posture_scores : List ℚ
  eye_contact_scores : List ℚ
  samples : ℕ
deriving DecidableEq

/-- Result dict of `posture_analyzer.process_posture_data`; the
`second_by_second` dict is an insertion-ordered association list. -/
structure PostureAnalysis where
  summary : PostureSummary
  second_by_second : List (ℤ × Bucket)
  recording_time : ℕ
deriving DecidableEq

/-- A word with timings from the Deepgram transcript
(dict keys `word`, `start`, `end`; `end` is a Lean keyword, its field is
named `stop`). -/
structure WordT where
  word : String
  start : ℚ
  stop : ℚ
deriving DecidableEq

/-- One filler-word instance recorded by `_analyze_filler_words`. -/
structure FillerInstance where
  word : String
  timestamp : ℚ
  position : ℕ
deriving DecidableEq

/-- Result dict of `speech_analyzer._analyze_filler_words`. -/
structure FillerOut where
  total_count : ℕ
  percentage : ℚ
  breakdown : List (String × ℕ)
  instances : List FillerInstance
deriving DecidableEq

/-- One pause recorded by `_analyze_pauses` (`end` modelled as `stop`). -/
structure PauseDetail where
  start : ℚ
  stop : ℚ
  duration : ℚ
  previous_word : String
  next_word : String
deriving DecidableEq

/-- Result dict of `speech_analyzer._analyze_pauses`. -/
structure PauseOut where
  count : ℕ
  total_duration : ℚ
  average_duration : ℚ
  details : List PauseDetail
deriving DecidableEq

/-- One consecutive-repetition sequence found by
`_find_repetition_sequences`. -/
structure RepSeq where
  word : String
  count : ℕ
  start_time : ℚ
  end_time : ℚ
  duration : ℚ
deriving DecidableEq

/-- Result dict of `speech_analyzer._analyze_repetition`; the Counter
dicts are insertion-ordered association lists. -/
structure RepOut where
  repeated_words : List (String × ℕ)
  top_repetitions : List (String × ℕ)
  repetition_sequences : List RepSeq
deriving DecidableEq

/-- One grammar error recorded by `_analyze_grammar`. -/
structure GrammarErr where
  error : String
  context : String
  offset : ℕ
  suggestions : List String
  category : String
deriving DecidableEq

/-- Result dict of `speech_analyzer._analyze_grammar`. -/
structure GrammarOut where
  count : ℕ
  details : List GrammarErr
deriving DecidableEq

/-- One 10-second pace segment of `_analyze_speech_pace`. -/
structure PaceSegment where
  segment : ℕ
  start_time : ℚ
  end_time : ℚ
  wpm : ℤ
  word_count : ℕ
deriving DecidableEq

/-- Result dict of `speech_analyzer._analyze_speech_pace`; the constant
`recommended_pace_range` entry (140, 160) carries no information and is
not modelled as a field. -/
structure PaceOut where
  pace_variation : ℚ
  pace_segments : List PaceSegment
deriving DecidableEq

/-- The full speech-analysis dict assembled by
`speech_analyzer.analyze_transcript`; the scoring engine reads a subset
of these keys. -/
structure SpeechAnalysis where
  word_count : ℕ
  duration_seconds : ℚ
  words_per_minute : ℚ
  speaking_time_seconds : ℚ
  pause_time_seconds : ℚ
  filler_words : FillerOut
  pauses : PauseOut
  repetition : RepOut
  grammar_errors : GrammarOut
  pace_analysis : PaceOut
  transcript : String
  word_timings : List WordT
deriving DecidableEq

/-! ### services/scoring_engine.py -/

/-- `self.weights['posture']` from `ScoringEngine.__init__`. -/
def weights_posture : List (String × ℚ) :=
  [("score", 15/100), ("consistency", 5/100), ("trend", 5/100)]

/-- `self.weights['eye_contact']` from `ScoringEngine.__init__`. -/
def weights_eye_contact : List (String × ℚ) :=
  [("score", 10/100), ("consistency", 5/100)]

/-- `self.weights['speech']` from `ScoringEngine.__init__`. -/
def weights_speech : List (String × ℚ) :=
  [("wpm", 10/100), ("filler_words", 10/100), ("pauses", 5/100),
   ("repetition", 5/100), ("grammar", 5/100)]

/-- `self.weights['content']` from `ScoringEngine.__init__`. -/
def weights_content : List (String × ℚ) :=
  [("relevance", 15/100), ("structure", 5/100), ("vocabulary", 5/100)]

/-- `self.weights['delivery']` from `ScoringEngine.__init__`. -/
def weights_delivery : List (String × ℚ) :=
  [("pace_consistency", 5/100), ("volume_stability", 5/100)]

/-- A category score: the `{'total': ..., 'components': {...}}` dicts
returned by the `_calculate_*_score` category methods. -/
structure CategoryScore where
  total : ℚ
  components : List (String × ℚ)
deriving DecidableEq

/-- `ScoringEngine._calculate_posture_score`. A falsy `posture_analysis`
argument is the `none` case. -/
def _calculate_posture_score (pa : Option PostureAnalysis) : CategoryScore :=
  match pa with
  | none => ⟨0, []⟩
  | some p =>
    let base_score := p.summary.average_posture_score
    let consistency_score := min 100 (p.summary.posture_breakdown.good_percentage * (12/10))
    let trend_score : ℚ := 80
    ⟨base_score * (7/10) + consistency_score * (2/10) + trend_score * (1/10),
     [("base_score", base_score), ("consistency", consistency_score),
      ("trend", trend_score)]⟩

/-- `ScoringEngine._calculate_eye_contact_score`. -/
def _calculate_eye_contact_score (pa : Option PostureAnalysis) : CategoryScore :=
  match pa with
  | none => ⟨0, []⟩
  | some p =>
    let base_score := p.summary.average_eye_contact_score
    let consistency_score := min 100 (p.summary.eye_contact_breakdown.good_percentage * (12/10))
    ⟨base_score * (8/10) + consistency_score * (2/10),
     [("base_score", base_score), ("consistency", consistency_score)]⟩

/-- `ScoringEngine._calculate_wpm_score` with
`ideal_ranges['wpm'] = (140, 160)`. -/
def _calculate_wpm_score (wpm : ℚ) : ℚ :=
  if 140 ≤ wpm ∧ wpm ≤ 160 then 100
  else if wpm < 100 then max 0 wpm
  else if wpm > 200 then max 0 (100 - (wpm - 200) * (1/2))
  else if wpm < 140 then 80 + (wpm - 120) * 1
  else 100 - (wpm - 160) * 1

/-- `ScoringEngine._calculate_filler_score` with
`ideal_ranges['filler_words_per_minute'] = (0, 3)`. -/
def _calculate_filler_score (filler_rate : ℚ) : ℚ :=
  if filler_rate ≤ 3 then 100
  else if filler_rate ≤ 10 then max 0 (100 - (filler_rate - 3) * 10)
  else max 0 (50 - (filler_rate - 10) * 5)

/-- `ScoringEngine._calculate_pause_score` with
`ideal_ranges['pause_ratio'] = (0.1, 0.3)`. -/
def _calculate_pause_score (pause_data : PauseOut) (duration : ℚ) : Option ℚ :=
  if duration = 0 then some 0
  else do
    let pr ← div? pause_data.total_duration duration
    if 1/10 ≤ pr ∧ pr ≤ 3/10 then pure 100
    else if pr < 1/10 then do
      let t ← div? pr (1/10)
      pure (80 + t * 20)
    else do
      let t ← div? (pr - 3/10) (3/10)
      pure (max 0 (100 - t * 100))

/-- `ScoringEngine._calculate_repetition_score`. -/
def _calculate_repetition_score (repetition_data : RepOut) : ℚ :=
  let total_repetitions := (repetition_data.repeated_words.map Prod.snd).sum
  if total_repetitions = 0 then 100
  else if total_repetitions ≤ 5 then 80
  else if total_repetitions ≤ 10 then 60
  else if total_repetitions ≤ 20 then 40
  else 20

/-- `ScoringEngine._calculate_grammar_score`. -/
def _calculate_grammar_score (grammar_data : GrammarOut) (word_count : ℕ) : Option ℚ :=
  if word_count = 0 then some 0
  else do
    let error_rate ← div? grammar_data.count word_count
    if error_rate = 0 then pure 100
    else if error_rate ≤ 1/100 then pure 90
    else if error_rate ≤ 2/100 then pure 80
    else if error_rate ≤ 5/100 then pure 60
    else pure 40

/-- `ScoringEngine._calculate_speech_scores`. A falsy `speech_analysis`
is the `none` case. -/
def _calculate_speech_scores (sa : Option SpeechAnalysis) : Option CategoryScore :=
  match sa with
  | none => some ⟨0, []⟩
  | some s => do
    let wpm_score := _calculate_wpm_score s.words_per_minute
    let duration := s.duration_seconds
    let filler_rate ←
      if duration > 0 then do
        let t ← div? s.filler_words.total_count duration
        pure (t * 60)
      else pure (0 : ℚ)
    let filler_score := _calculate_filler_score filler_rate
    let pause_score ← _calculate_pause_score s.pauses duration
    let repetition_score := _calculate_repetition_score s.repetition
    let grammar_score ← _calculate_grammar_score s.grammar_errors s.word_count
    let components := [("wpm", wpm_score), ("filler_words", filler_score),
      ("pauses", pause_score), ("repetition", repetition_score),
      ("grammar", grammar_score)]
    let total ← div?
      ((components.map (fun p => p.2 * wget weights_speech p.1)).sum)
      (sumVals weights_speech)
    pure ⟨total, components⟩

/-- Substring test on character lists (Python `needle in hay`). -/
def containsSub (needle : List Char) : List Char → Bool
  | [] => needle.isEmpty
  | c :: t => needle.isPrefixOf (c :: t) || containsSub needle t

/-- Python `needle in hay` on strings. -/
def strContains (hay needle : String) : Bool := containsSub needle.data hay.data

/-- Python `s.lower()`, idealised as per-character lowercasing. -/
def pyLower (s : String) : String := ⟨s.data.map Char.toLower⟩

/-- Python `s.strip()`: drop leading and trailing whitespace. -/
def stripWs (s : String) : String :=
  ⟨((s.data.dropWhile Char.isWhitespace).reverse.dropWhile Char.isWhitespace).reverse⟩

/-- Split a character list at every character satisfying `p`, keeping
empty pieces (the Python `str.split(sep)` shape). -/
def splitBy (p : Char → Bool) : List Char → List (List Char)
  | [] => [[]]
  | c :: t =>
    if p c then [] :: splitBy p t
    else
      match splitBy p t with
      | [] => [[c]]
      | h :: r => (c :: h) :: r

/-- Python `s.split(sep)` for a one-character separator. -/
def pySplitOnChar (sep : Char) (s : String) : List String :=
  (splitBy (fun c => c = sep) s.data).map (fun l => (⟨l⟩ : String))

/-- Python `s.split()`: split on whitespace, dropping empty pieces. -/
def pySplitWs (s : String) : List String :=
  ((splitBy Char.isWhitespace s.data).map (fun l => (⟨l⟩ : String))).filter
    (fun t => t ≠ "")

/-- `ScoringEngine._calculate_relevance_score`; the `transcript` argument
is already lowercased by the caller. The dead local `transcript_words`
of the source is not modelled. -/
def _calculate_relevance_score (transcript : String) (topic_keywords : Option (List String)) :
    Option ℚ :=
  match topic_keywords with
  | none => some 50
  | some ks =>
    if ks = [] ∨ transcript = "" then some 50
    else do
      let keyword_matches := (ks.filter (fun k => strContains transcript (pyLower k))).length
      let p ← div? keyword_matches ks.length
      pure (min 100 (p * 100 * (12/10)))

/-- `ScoringEngine._calculate_structure_score`. -/
def _calculate_structure_score (transcript : String) (word_count : ℕ) : Option ℚ :=
  if word_count < 50 then some 50
  else
    let sentences := pySplitOnChar '.' transcript
    let sentence_count := (sentences.filter (fun s => (stripWs s).length > 0)).length
    if sentence_count = 0 then some 50
    else do
      let avg_sentence_length ← div? word_count sentence_count
      if 15 ≤ avg_sentence_length ∧ avg_sentence_length ≤ 25 then pure 90
      else if 10 ≤ avg_sentence_length ∧ avg_sentence_length ≤ 30 then pure 70
      else pure 50

/-- `ScoringEngine._calculate_vocabulary_score`. -/
def _calculate_vocabulary_score (sa : SpeechAnalysis) : Option ℚ :=
  if sa.word_count < 20 then some 50
  else
    let ws := (pySplitWs (pyLower sa.transcript)).filter (fun w => w.length > 2)
    if ws = [] then some 50
    else do
      let d ← div? ws.eraseDups.length ws.length
      if d ≥ 7/10 then pure 90
      else if d ≥ 5/10 then pure 70
      else if d ≥ 3/10 then pure 50
      else pure 30

/-- `ScoringEngine._calculate_content_score`. -/
def _calculate_content_score (sa : Option SpeechAnalysis)
    (topic_keywords : Option (List String)) : Option CategoryScore :=
  match sa with
  | none => some ⟨0, []⟩
  | some s => do
    let transcript := pyLower s.transcript
    let relevance_score ← _calculate_relevance_score transcript topic_keywords
    let structure_score ← _calculate_structure_score transcript s.word_count
    let vocabulary_score ← _calculate_vocabulary_score s
    pure ⟨relevance_score * (6/10) + structure_score * (2/10) + vocabulary_score * (2/10),
      [("relevance", relevance_score), ("structure", structure_score),
       ("vocabulary", vocabulary_score)]⟩

/-- `ScoringEngine._calculate_delivery_score`. -/
def _calculate_delivery_score (sa : Option SpeechAnalysis) : CategoryScore :=
  match sa with
  | none => ⟨0, []⟩
  | some s =>
    let pace_variation := s.pace_analysis.pace_variation
    let pace_consistency := max 0 (100 - pace_variation * 10)
    let volume_stability : ℚ := 80
    ⟨pace_consistency * (6/10) + volume_stability * (4/10),
     [("pace_consistency", pace_consistency), ("volume_stability", volume_stability)]⟩

/-- `ScoringEngine._get_performance_level`. -/
def _get_performance_level (score : ℚ) : String :=
  if score ≥ 90 then "Excellent"
  else if score ≥ 80 then "Very Good"
  else if score ≥ 70 then "Good"
  else if score ≥ 60 then "Satisfactory"
  else if score ≥ 50 then "Needs Improvement"
  else "Needs Practice"

/-- The result dict of `ScoringEngine.calculate_overall_score`; the
`recommendations` entry is UI text assembled by
`_generate_recommendations` and no claim concerns it, hence it is not a
field. -/
structure ScoreResult where
  total : ℚ
  performance_level : String
  category_posture : CategoryScore
  category_eye_contact : CategoryScore
  category_speech : CategoryScore
  category_content : CategoryScore
  category_delivery : CategoryScore
  breakdown_posture : ℚ
  breakdown_eye_contact : ℚ
  breakdown_speech : ℚ
  breakdown_content : ℚ
  breakdown_delivery : ℚ
deriving DecidableEq

/-- `ScoringEngine.calculate_overall_score` (the body of the `try`
block; the `except` branch returning `_get_empty_score` is reachable
only when some modelled division fails, i.e. when this function is
`none` — which by `calculate_overall_score_total_eq` never happens). -/
def calculate_overall_score (pa : Option PostureAnalysis) (sa : Option SpeechAnalysis)
    (topic_keywords : Option (List String)) : Option ScoreResult := do
  let posture_score := _calculate_posture_score pa
  let eye_contact_score := _calculate_eye_contact_score pa
  let speech_scores ← _calculate_speech_scores sa
  let content_score ← _calculate_content_score sa topic_keywords
  let delivery_score := _calculate_delivery_score sa
  let total_score :=
    posture_score.total * wget weights_posture "score" +
    eye_contact_score.total * wget weights_eye_contact "score" +
    speech_scores.total * sumVals weights_speech +
    content_score.total * sumVals weights_content +
    delivery_score.total * sumVals weights_delivery
  pure {
    total := pyRound1 total_score
    performance_level := _get_performance_level total_score
    category_posture := posture_score
    category_eye_contact := eye_contact_score
    category_speech := speech_scores
    category_content := content_score
    category_delivery := delivery_score
    breakdown_posture := pyRound1 posture_score.total
    breakdown_eye_contact := pyRound1 eye_contact_score.total
    breakdown_speech := pyRound1 speech_scores.total
    breakdown_content := pyRound1 content_score.total
    breakdown_delivery := pyRound1 delivery_score.total }

/-! ### utils/posture_analyzer.py — data aggregation

Only the pure aggregation half of `PostureAnalyzer` is embedded; the
MediaPipe frame analysis consumes camera frames and is outside every
claim. -/

/-- One entry of the raw posture / eye-contact sample lists sent by the
frontend (`{'timestamp': ..., 'score': ...}`); entries that are not
dicts are skipped by the source and are not representable here. -/
structure Sample where
  timestamp : ℚ
  score : ℚ
deriving DecidableEq

/-- The raw dict accepted by `process_posture_data`. -/
structure RawPostureData where
  posture : List Sample
  eye_contact : List Sample
deriving DecidableEq

namespace PostureAnalyzer

/-- One pass of the per-entry loop of `process_posture_data`: ensure the
bucket of `int(float(timestamp))` exists, then append positive scores to
the running list and to the bucket list selected by `sel`/`upd`. -/
def processEntries (upd : Bucket → ℚ → Bucket) (entries : List Sample)
    (acc : List ℚ × List (ℤ × Bucket)) : List ℚ × List (ℤ × Bucket) :=
  entries.foldl (fun acc e =>
    let second := pyTrunc e.timestamp
    let buckets :=
      if (alistGet acc.2 second).isSome then acc.2
      else acc.2 ++ [(second, ⟨[], [], 0⟩)]
    if e.score > 0 then
      (acc.1 ++ [e.score], alistMod buckets second (fun b => upd b e.score))
    else (acc.1, buckets)) acc

/-- Contribution of one bucket to the posture category counters
(good, okay, bad): a bucket with no posture samples contributes nothing;
otherwise its mean is classified by the ≥80 / ≥60 thresholds. -/
def postureCat? (b : Bucket) : Option (ℕ × ℕ × ℕ) :=
  if b.posture_scores = [] then some (0, 0, 0)
  else do
    let m ← mean? b.posture_scores
    pure (if m ≥ 80 then (1, 0, 0) else if m ≥ 60 then (0, 1, 0) else (0, 0, 1))

/-- Contribution of one bucket to the eye-contact category counters
(good, moderate, poor), thresholds ≥75 / ≥50. -/
def eyeCat? (b : Bucket) : Option (ℕ × ℕ × ℕ) :=
  if b.eye_contact_scores = [] then some (0, 0, 0)
  else do
    let m ← mean? b.eye_contact_scores
    pure (if m ≥ 75 then (1, 0, 0) else if m ≥ 50 then (0, 1, 0) else (0, 0, 1))

/-- Percentage entry of a breakdown:
`round(count / total_seconds * 100, 1) if total_seconds > 0 else 0`. -/
def pct? (count total_seconds : ℕ) : Option ℚ :=
  if total_seconds > 0 then do
    let t ← div? count total_seconds
    pure (pyRound1 (t * 100))
  else pure 0

/-- Category counters accumulated by the bucket loop of
`_calculate_summary_stats`: the per-bucket `+= 1` increments of a loop
commute, hence the structural recursion sums the contributions. -/
def sumCats (f : Bucket → Option (ℕ × ℕ × ℕ)) : List (ℤ × Bucket) → Option (ℕ × ℕ × ℕ)
  | [] => some (0, 0, 0)
  | p :: t => do
    let c ← f p.2
    let r ← sumCats f t
    pure (c.1 + r.1, c.2.1 + r.2.1, c.2.2 + r.2.2)

/-- The `np.mean(xs) if xs else 0` average of the summary statistics. -/
def avgOrZero? (l : List ℚ) : Option ℚ :=
  if l ≠ [] then mean? l else pure 0

/-- `PostureAnalyzer._calculate_summary_stats`. -/
def _calculate_summary_stats (posture_scores eye_contact_scores : List ℚ)
    (second_by_second : List (ℤ × Bucket)) : Option PostureSummary := do
  let avg_posture ← avgOrZero? posture_scores
  let avg_eye_contact ← avgOrZero? eye_contact_scores
  let pcats ← sumCats postureCat? second_by_second
  let ecats ← sumCats eyeCat? second_by_second
  let total_seconds := second_by_second.length
  let pg ← pct? pcats.1 total_seconds
  let po ← pct? pcats.2.1 total_seconds
  let pb ← pct? pcats.2.2 total_seconds
  let eg ← pct? ecats.1 total_seconds
  let em ← pct? ecats.2.1 total_seconds
  let ep ← pct? ecats.2.2 total_seconds
  pure {
    average_posture_score := pyRound1 avg_posture
    average_eye_contact_score := pyRound1 avg_eye_contact
    posture_breakdown := ⟨pg, po, pb⟩
    eye_contact_breakdown := ⟨eg, em, ep⟩
    total_recording_seconds := total_seconds }

/-- `PostureAnalyzer._get_empty_analysis`. -/
def _get_empty_analysis : PostureAnalysis :=
  { summary := {
      average_posture_score := 65
      average_eye_contact_score := 60
      posture_breakdown := ⟨40, 45, 15⟩
      eye_contact_breakdown := ⟨35, 50, 15⟩
      total_recording_seconds := 0 }
    second_by_second := []
    recording_time := 0 }

/-- `PostureAnalyzer.process_posture_data` (body of the `try` block; the
`except` branch returning `_get_empty_analysis` corresponds to `none`,
which only a failed modelled division could produce). The
`total_recording_seconds` key is present in the real summary and absent
from the empty one; it is 0 there, the value no reader distinguishes. -/
def process_posture_data (raw : RawPostureData) : Option PostureAnalysis :=
  if raw.posture = [] ∧ raw.eye_contact = [] then some _get_empty_analysis
  else do
    let step1 := processEntries
      (fun b s => { b with posture_scores := b.posture_scores ++ [s] })
      raw.posture ([], [])
    let step2 := processEntries
      (fun b s => { b with eye_contact_scores := b.eye_contact_scores ++ [s] })
      raw.eye_contact ([], step1.2)
    let second_by_second := step2.2.map (fun p =>
      (p.1, { p.2 with samples := max p.2.posture_scores.length p.2.eye_contact_scores.length }))
    let summary ← _calculate_summary_stats step1.1 step2.1 second_by_second
    pure {
      summary := summary
      second_by_second := second_by_second
      recording_time := second_by_second.length }

end PostureAnalyzer

/-! ### utils/speech_analyzer.py -/

/-- First alternative of the first channel of a Deepgram response. -/
structure AltT where
  transcript : String
  words : List WordT
deriving DecidableEq

/-- One channel of a Deepgram response. -/
structure ChannelT where
  alternatives : List AltT
deriving DecidableEq

/-- The `results` dict of a Deepgram response. A transcript payload that
is falsy or lacks the `results` key is `none`. -/
structure ResultsT where
  channels : List ChannelT
deriving DecidableEq

/-- Python `s.strip(chars)`: drop leading and trailing characters that
belong to `chars`. -/
def pyStrip (chars : List Char) (s : String) : String :=
  ⟨((s.data.dropWhile (· ∈ chars)).reverse.dropWhile (· ∈ chars)).reverse⟩

/-- Python `s.capitalize()`: first character uppercased, the rest
lowercased. -/
def pyCapitalize (s : String) : String :=
  match s.data with
  | [] => ""
  | c :: t => ⟨c.toUpper :: t.map Char.toLower⟩

/-- `collections.Counter` of a list of strings: counts in
first-occurrence order. -/
def counterOf (l : List String) : List (String × ℕ) :=
  l.foldl (fun acc w =>
    match alistGet acc w with
    | some n => alistSet acc w (n + 1)
    | none => acc ++ [(w, 1)]) []

/-- `Counter.most_common(n)`: entries sorted by count descending
(stable, hence insertion order among equal counts), first `n` kept. -/
def mostCommon (n : ℕ) (l : List (String × ℕ)) : List (String × ℕ) :=
  (l.mergeSort (fun a b => b.2 ≤ a.2)).take n

namespace SpeechAnalyzer

/-- `self.filler_words` from `SpeechAnalyzer.__init__` (the source list
repeats "basically"; membership is unaffected). -/
def filler_words : List String :=
  ["um", "uh", "like", "you know", "actually", "basically",
   "literally", "so", "well", "okay", "right", "ah", "er",
   "just", "kind of", "sort of", "i mean", "you see", "anyway",
   "basically", "seriously", "honestly", "anyways", "alright"]

/-- `self.common_words` from `SpeechAnalyzer.__init__`. -/
def common_words : List String :=
  ["the", "a", "an", "and", "or", "but", "in", "on", "at", "to", "for",
   "of", "with", "by", "is", "are", "was", "were", "be", "been", "being",
   "have", "has", "had", "do", "does", "did", "will", "would", "could",
   "should", "may", "might", "can", "this", "that", "these", "those",
   "i", "you", "he", "she", "it", "we", "they", "me", "him", "her", "us", "them"]

/-- The punctuation characters of the `.strip('.,!?;')` calls. -/
def stripSet : List Char := ['.', ',', '!', '?', ';']

/-- `SpeechAnalyzer._extract_transcript_text`. -/
def _extract_transcript_text (td : Option ResultsT) : String :=
  match td with
  | none => ""
  | some r =>
    match r.channels with
    | [] => ""
    | c :: _ =>
      match c.alternatives with
      | [] => ""
      | a :: _ => stripWs a.transcript

/-- `SpeechAnalyzer._extract_words_with_timings`. -/
def _extract_words_with_timings (td : Option ResultsT) : List WordT :=
  match td with
  | none => []
  | some r =>
    match r.channels with
    | [] => []
    | c :: _ =>
      match c.alternatives with
      | [] => []
      | a :: _ => a.words

/-- The five scalar fields computed by `_calculate_basic_metrics`. -/
structure BasicMetrics where
  word_count : ℕ
  duration_seconds : ℚ
  words_per_minute : ℚ
  speaking_time_seconds : ℚ
  pause_time_seconds : ℚ
deriving DecidableEq

/-- `SpeechAnalyzer._calculate_basic_metrics` (its unused `transcript`
parameter is dropped). `words_per_minute` is `round(wpm)`, an integer. -/
def _calculate_basic_metrics (words : List WordT) : Option BasicMetrics := do
  let word_count := words.length
  let duration ←
    match words with
    | [] => pure (0 : ℚ)
    | w :: t => pure (((w :: t).getLast (by simp)).stop - w.start)
  let wpm ←
    if duration > 0 then do
      let t ← div? word_count duration
      pure (t * 60)
    else pure (0 : ℚ)
  let speaking_time := (words.map (fun w => w.stop - w.start)).sum
  pure {
    word_count := word_count
    duration_seconds := pyRound2 duration
    words_per_minute := (roundHalfEven wpm : ℚ)
    speaking_time_seconds := pyRound2 speaking_time
    pause_time_seconds := pyRound2 (duration - speaking_time) }

/-- `SpeechAnalyzer._analyze_filler_words`. -/
def _analyze_filler_words (words : List WordT) : Option FillerOut := do
  let instances := (words.enum.filterMap (fun p =>
    let w := pyStrip stripSet (pyLower p.2.word)
    if w ∈ filler_words then some (⟨w, p.2.start, p.1⟩ : FillerInstance)
    else none))
  let total_fillers := instances.length
  let percentage ←
    if words ≠ [] then do
      let t ← div? total_fillers words.length
      pure (pyRound2 (t * 100))
    else pure (0 : ℚ)
  pure {
    total_count := total_fillers
    percentage := percentage
    breakdown := counterOf (instances.map (·.word))
    instances := instances }

/-- `SpeechAnalyzer._analyze_pauses`: gaps above 0.3 s between adjacent
words. The running `total_pause_duration` adds the unrounded gap. -/
def _analyze_pauses (words : List WordT) : Option PauseOut := do
  let steps := (words.zip words.tail).filterMap (fun p =>
    let gap := p.2.start - p.1.stop
    if gap > 3/10 then
      some ((⟨p.1.stop, p.2.start, pyRound2 gap, p.1.word, p.2.word⟩ : PauseDetail), gap)
    else none)
  let pauses := steps.map Prod.fst
  let total_pause_duration := (steps.map Prod.snd).sum
  let avg ←
    if pauses ≠ [] then div? total_pause_duration pauses.length
    else pure (0 : ℚ)
  pure {
    count := pauses.length
    total_duration := pyRound2 total_pause_duration
    average_duration := pyRound2 avg
    details := pauses }

/-- Inner `while` loop of `_find_repetition_sequences`: the number of
further words equal (case-insensitively) to `cur` with a gap below 2 s
from the preceding word, together with the last word of the run. -/
def runScan (cur : String) (prev : WordT) : List WordT → ℕ × WordT
  | [] => (0, prev)
  | w :: rest =>
    if pyLower w.word = cur ∧ w.start - prev.stop < 2 then
      let r := runScan cur w rest
      (r.1 + 1, r.2)
    else (0, prev)

/-- Outer `while` loop of `_find_repetition_sequences`; `fuel` bounds
the iteration count (each iteration advances the index by at least 1,
hence `length words` suffices). -/
def findSeqsAux : ℕ → List WordT → List RepSeq
  | 0, _ => []
  | _, [] => []
  | _, [_] => []
  | fuel + 1, w :: rest =>
    let cur := pyLower w.word
    let r := runScan cur w rest
    if r.1 + 1 ≥ 2 then
      ⟨cur, r.1 + 1, w.start, r.2.stop, r.2.stop - w.start⟩ ::
        findSeqsAux fuel (rest.drop r.1)
    else findSeqsAux fuel rest

/-- `SpeechAnalyzer._find_repetition_sequences`. -/
def _find_repetition_sequences (words : List WordT) : List RepSeq :=
  findSeqsAux words.length words

/-- `SpeechAnalyzer._analyze_repetition`. -/
def _analyze_repetition (words : List WordT) : RepOut :=
  let content_words := (words.filter (fun w =>
      w.word.length > 3 ∧ pyLower w.word ∉ common_words)).map
    (fun w => pyStrip stripSet (pyLower w.word))
  let word_freq := counterOf content_words
  let repeated_words := word_freq.filter (fun p => p.2 ≥ 3)
  { repeated_words := repeated_words
    top_repetitions := mostCommon 10 repeated_words
    repetition_sequences := _find_repetition_sequences words }

/-- `SpeechAnalyzer._analyze_grammar`: flags sentences (split on ".")
whose first character is not an uppercase letter. -/
def _analyze_grammar (text : String) : GrammarOut :=
  let errors := (pySplitOnChar '.' text).filterMap (fun s =>
    let s := stripWs s
    match s.data with
    | [] => none
    | c :: _ =>
      if c.isUpper then none
      else some (⟨"Sentence should start with capital letter",
        ⟨s.data.take 50⟩, 0, [pyCapitalize s], "Capitalization"⟩ : GrammarErr))
  ⟨errors.length, errors⟩

/-- Population variance (the square of `np.std`). -/
def variance? (l : List ℚ) : Option ℚ := do
  let m ← mean? l
  mean? (l.map (fun x => (x - m) ^ 2))

/-- `SpeechAnalyzer._analyze_speech_pace`. `np.std` takes a real square
root, which is irrational in general; `sqrtF` abstracts that square
root and is applied to the exact population variance. No claim depends
on its value. -/
def _analyze_speech_pace (sqrtF : ℚ → ℚ) (words : List WordT) : Option PaceOut :=
  if words.length < 2 then some ⟨0, []⟩
  else
    match words with
    | [] => some ⟨0, []⟩
    | w :: t => do
      let total_duration := ((w :: t).getLast (by simp)).stop - w.start
      let nseg ← div? total_duration 10
      let num_segments := pyTrunc nseg + 1
      let pace_segments := (List.range num_segments.toNat).map (fun (seg : ℕ) =>
        let seg_start := w.start + (seg : ℚ) * 10
        let seg_end := seg_start + 10
        let seg_words := words.filter (fun x => x.start ≥ seg_start ∧ x.stop ≤ seg_end)
        (⟨seg, seg_start, seg_end, roundHalfEven (seg_words.length * 6),
          seg_words.length⟩ : PaceSegment))
      let wpm_values := (pace_segments.filter (fun s => s.wpm > 0)).map (fun s => (s.wpm : ℚ))
      let pace_variation ←
        if wpm_values ≠ [] then do
          let v ← variance? wpm_values
          pure (pyRound2 (sqrtF v))
        else pure (0 : ℚ)
      pure ⟨pace_variation, pace_segments⟩

/-- `SpeechAnalyzer._get_empty_analysis`. -/
def _get_empty_analysis : SpeechAnalysis :=
  { word_count := 0
    duration_seconds := 0
    words_per_minute := 0
    speaking_time_seconds := 0
    pause_time_seconds := 0
    filler_words := ⟨0, 0, [], []⟩
    pauses := ⟨0, 0, 0, []⟩
    repetition := ⟨[], [], []⟩
    grammar_errors := ⟨0, []⟩
    pace_analysis := ⟨0, []⟩
    transcript := ""
    word_timings := [] }

/-- `SpeechAnalyzer.analyze_transcript` (body of the `try` block; the
`except` branch returning `_get_empty_analysis` corresponds to `none`,
i.e. a failed modelled division). -/
def analyze_transcript (sqrtF : ℚ → ℚ) (td : Option ResultsT) : Option SpeechAnalysis :=
  match td with
  | none => some _get_empty_analysis
  | some r =>
    let transcript_text := _extract_transcript_text (some r)
    let words := _extract_words_with_timings (some r)
    if stripWs transcript_text = "" then some _get_empty_analysis
    else do
      let bm ← _calculate_basic_metrics words
      let filler ← _analyze_filler_words words
      let pauses ← _analyze_pauses words
      let pace ← _analyze_speech_pace sqrtF words
      pure {
        word_count := bm.word_count
        duration_seconds := bm.duration_seconds
        words_per_minute := bm.words_per_minute
        speaking_time_seconds := bm.speaking_time_seconds
        pause_time_seconds := bm.pause_time_seconds
        filler_words := filler
        pauses := pauses
        repetition := _analyze_repetition words
        grammar_errors := _analyze_grammar transcript_text
        pace_analysis := pace
        transcript := transcript_text
        word_timings := words }

end SpeechAnalyzer

/-! ### services/realtime_feedback.py

`time.time()` and `np.random.random()` are effects; each call of
`analyze_frame` takes the current time `now` and the random draw `rand`
as explicit arguments. The single Python division of
`_calculate_overall_score` sits under an explicit `total_weight > 0`
guard and the `np.polyfit` slope denominator is nonzero for the ≥ 2
points it is given (its `try/except` falls back to "stable"), hence
total `/` is used in this module. -/

/-- Python `deque(maxlen = n)` append: drop from the left beyond `n`. -/
def dequeAppend {α : Type} (maxlen : ℕ) (xs : List α) (x : α) : List α :=
  let ys := xs ++ [x]
  if ys.length > maxlen then ys.drop (ys.length - maxlen) else ys

/-- The `posture_data` dict given to `analyze_frame`: flat
`posture_score` / `eye_contact_score` keys, with the nested
`posture.score` / `eye_contact.score` fallbacks read when the flat keys
are absent. A falsy `posture_data` is `none`; a truthy non-dict value
behaves as a dict with no keys. -/
structure PDict where
  posture_score : Option ℚ
  eye_contact_score : Option ℚ
  nested_posture : Option ℚ
  nested_eye_contact : Option ℚ
deriving DecidableEq

/-- The posture part of a feedback object. `_get_empty_feedback` builds
a posture dict holding only `score` and empty `messages`; keys that can
be absent are `Option` and every consumer reads them with the
`.get` default. -/
structure PostureFB where
  score : ℤ
  eye_contact_score : Option ℤ
  posture_status : Option String
  eye_contact_status : Option String
  posture_trend : Option String
  eye_contact_trend : Option String
  posture_message : Option String
  eye_contact_message : Option String
deriving DecidableEq

/-- The speech part of a feedback object. Both the `{}` of a frame
without audio and the `{'messages': {}}` of the empty feedback carry no
speech metrics and are `none`. -/
structure SpeechFB where
  current_wpm : ℤ
  filler_rate : ℕ
  pace_status : String
  filler_status : String
  pace_message : String
  filler_message : String
deriving DecidableEq

/-- The feedback object returned by `analyze_frame`. -/
structure Feedback where
  timestamp : ℚ
  posture : PostureFB
  speech : Option SpeechFB
  suggestions : List String
  overall_score : ℤ
  alert_level : String
deriving DecidableEq

/-- The `speech_data` sub-dict of a session. -/
structure SpeechState where
  word_count : ℕ
  last_word_time : Option ℚ
  current_pace : ℚ
deriving DecidableEq

/-- One `{'timestamp': ..., 'value': ...}` entry of `metrics_history`. -/
structure MetricPoint where
  timestamp : ℚ
  value : ℚ
deriving DecidableEq

/-- The `metrics_history` dict of a session (plain unbounded lists). -/
structure MetricsHistory where
  posture : List MetricPoint
  eye_contact : List MetricPoint
  pace : List MetricPoint
  filler_rate : List MetricPoint
deriving DecidableEq

/-- One session dict of `active_sessions`, as built by `start_session`;
`posture_scores`, `eye_contact_scores` and `filler_words` are deques
with maxlen 300, 300 and 600, `feedback_messages` a deque with
maxlen 10. -/
structure Session where
  start_time : ℚ
  posture_scores : List ℚ
  eye_contact_scores : List ℚ
  filler_words : List ℚ
  speech_data : SpeechState
  feedback_messages : List Feedback
  metrics_history : MetricsHistory
deriving DecidableEq

/-- The mutable state of a `RealtimeFeedback` instance:
`self.active_sessions` and `self.feedback_history`. -/
structure RTState where
  active_sessions : List (String × Session)
  feedback_history : List (String × List Feedback)
deriving DecidableEq

namespace Realtime

/-- `self.posture_thresholds` from `RealtimeFeedback.__init__`. -/
def posture_thresholds : List (String × ℚ) := [("good", 80), ("okay", 60), ("poor", 0)]

/-- `self.eye_contact_thresholds`. -/
def eye_contact_thresholds : List (String × ℚ) := [("good", 75), ("moderate", 50), ("poor", 0)]

/-- `self.filler_word_thresholds` (per minute). -/
def filler_word_thresholds : List (String × ℚ) := [("low", 2), ("medium", 5), ("high", 10)]

/-- `self.pace_thresholds`. -/
def pace_thresholds : List (String × ℚ) :=
  [("too_slow", 120), ("ideal_min", 140), ("ideal_max", 160), ("too_fast", 180)]

/-- Least-squares slope of `np.polyfit(x, ys, 1)` for `x = 0, 1, ...`. -/
def lsSlope (ys : List ℚ) : ℚ :=
  let n : ℚ := ys.length
  let xs := (List.range ys.length).map (fun i => (i : ℚ))
  let sx := xs.sum
  let sy := ys.sum
  let sxy := ((xs.zip ys).map (fun p => p.1 * p.2)).sum
  let sxx := (xs.map (fun x => x * x)).sum
  (n * sxy - sx * sy) / (n * sxx - sx * sx)

/-- `RealtimeFeedback._calculate_trend`. -/
def _calculate_trend (values : List ℚ) : String :=
  if values.length < 2 then "stable"
  else
    let recent := if values.length ≥ 10 then values.drop (values.length - 10) else values
    if recent.length < 2 then "stable"
    else
      let slope := lsSlope recent
      if slope > 1 then "improving"
      else if slope < -1 then "declining"
      else "stable"

/-- `RealtimeFeedback._categorize_posture`. -/
def _categorize_posture (score : ℚ) : String :=
  if score ≥ wget posture_thresholds "good" then "good"
  else if score ≥ wget posture_thresholds "okay" then "okay"
  else "poor"

/-- `RealtimeFeedback._categorize_eye_contact`. -/
def _categorize_eye_contact (score : ℚ) : String :=
  if score ≥ wget eye_contact_thresholds "good" then "good"
  else if score ≥ wget eye_contact_thresholds "moderate" then "moderate"
  else "poor"

/-- `RealtimeFeedback._categorize_pace`. -/
def _categorize_pace (wpm : ℚ) : String :=
  if wpm < wget pace_thresholds "too_slow" then "too_slow"
  else if wpm < wget pace_thresholds "ideal_min" then "slightly_slow"
  else if wpm ≤ wget pace_thresholds "ideal_max" then "ideal"
  else if wpm ≤ wget pace_thresholds "too_fast" then "slightly_fast"
  else "too_fast"

/-- `RealtimeFeedback._categorize_filler_rate`. -/
def _categorize_filler_rate (rate : ℚ) : String :=
  if rate ≤ wget filler_word_thresholds "low" then "low"
  else if rate ≤ wget filler_word_thresholds "medium" then "medium"
  else "high"

/-- `RealtimeFeedback._get_posture_feedback`. -/
def _get_posture_feedback (score : ℚ) (trend : String) : String :=
  if score ≥ 80 then "Great posture! You\x27re projecting confidence."
  else if score ≥ 60 then
    if trend = "improving" then "Posture is improving. Keep your shoulders back."
    else "Good posture. Try to sit up a bit straighter."
  else "Adjust your posture. Sit up straight and align your shoulders."

/-- `RealtimeFeedback._get_eye_contact_feedback` (its `trend` parameter
is unused by the source body). -/
def _get_eye_contact_feedback (score : ℚ) (_trend : String) : String :=
  if score ≥ 75 then "Excellent eye contact with the audience."
  else if score ≥ 50 then "Good eye contact. Try to look directly at the camera more."
  else "Focus on looking at the camera to engage your audience."

/-- `RealtimeFeedback._get_pace_feedback`. -/
def _get_pace_feedback (wpm : ℚ) : String :=
  if 140 ≤ wpm ∧ wpm ≤ 160 then "Perfect speaking pace - clear and engaging."
  else if wpm < 120 then "Your pace is slow. Try to speak a bit faster."
  else if wpm > 180 then "You\x27re speaking quickly. Slow down for better clarity."
  else "Good speaking pace. Maintain this rhythm."

/-- `RealtimeFeedback._get_filler_feedback`. -/
def _get_filler_feedback (rate : ℚ) : String :=
  if rate ≤ 2 then "Excellent control of filler words."
  else if rate ≤ 5 then "Good speech clarity. Watch for occasional filler words."
  else "Try pausing instead of using filler words like \x27um\x27 or \x27like\x27."

/-- `RealtimeFeedback._analyze_posture`: mutates the session's score
deques and returns the posture feedback dict. -/
def _analyze_posture (session : Session) (posture_data : Option PDict) :
    Session × PostureFB :=
  match posture_data with
  | none =>
    (session, ⟨0, some 0, some "unknown", some "unknown", some "stable", some "stable",
      some "Ready to analyze...", some "Ready to analyze..."⟩)
  | some pd =>
    let posture_score := pd.posture_score.getD (pd.nested_posture.getD 0)
    let eye_contact_score := pd.eye_contact_score.getD (pd.nested_eye_contact.getD 0)
    let session :=
      if posture_score > 0 then
        { session with posture_scores := dequeAppend 300 session.posture_scores posture_score }
      else session
    let session :=
      if eye_contact_score > 0 then
        { session with
          eye_contact_scores := dequeAppend 300 session.eye_contact_scores eye_contact_score }
      else session
    let posture_trend :=
      if session.posture_scores ≠ [] then _calculate_trend session.posture_scores else "stable"
    let eye_contact_trend :=
      if session.eye_contact_scores ≠ [] then _calculate_trend session.eye_contact_scores
      else "stable"
    let posture_message :=
      if posture_score > 0 then _get_posture_feedback posture_score posture_trend
      else "Analyzing posture..."
    let eye_contact_message :=
      if eye_contact_score > 0 then _get_eye_contact_feedback eye_contact_score eye_contact_trend
      else "Analyzing eye contact..."
    (session,
     ⟨max 0 (min 100 (pyTrunc posture_score)),
      some (max 0 (min 100 (pyTrunc eye_contact_score))),
      some (_categorize_posture posture_score),
      some (_categorize_eye_contact eye_contact_score),
      some posture_trend, some eye_contact_trend,
      some posture_message, some eye_contact_message⟩)

/-- `RealtimeFeedback._analyze_speech`: simulated speech metrics; the
filler-word simulation fires when `rand < 0.05`. -/
def _analyze_speech (session : Session) (current_time rand : ℚ) : Session × SpeechFB :=
  let word_count := session.speech_data.word_count + 1
  let session_duration := current_time - session.start_time
  let current_wpm :=
    if session_duration > 0 then (word_count : ℚ) / session_duration * 60 else 0
  let fillers :=
    if rand < 5/100 then dequeAppend 600 session.filler_words current_time
    else session.filler_words
  let recent_fillers := fillers.filter (fun t => current_time - t < 60)
  let filler_rate := recent_fillers.length
  ({ session with
      speech_data := ⟨word_count, some current_time, current_wpm⟩
      filler_words := fillers },
   ⟨roundHalfEven current_wpm, filler_rate,
    _categorize_pace current_wpm, _categorize_filler_rate filler_rate,
    _get_pace_feedback current_wpm, _get_filler_feedback filler_rate⟩)

/-- Keep the first occurrence of each element
(`list(dict.fromkeys(l))`). -/
def dedupFirst (l : List String) : List String :=
  l.foldl (fun acc x => if x ∈ acc then acc else acc ++ [x]) []

/-- `RealtimeFeedback._generate_suggestions`. Its `feedback` argument is
the combined dict `{posture, speech, timestamp}`, which carries no
`overall_score` key, hence `feedback.get('overall_score', 0)` always
reads the `overall_score` argument the caller supplies — 0 from
`analyze_frame`. -/
def _generate_suggestions (posture : PostureFB) (speech : Option SpeechFB)
    (overall_score : ℚ) : List String :=
  let posture_score := posture.score
  let eye_contact_score := posture.eye_contact_score.getD 0
  let wpm := (speech.map (·.current_wpm)).getD 0
  let filler_rate : ℕ := (speech.map (·.filler_rate)).getD 0
  if posture_score = 0 ∧ eye_contact_score = 0 ∧ wpm = 0 then
    ["Start speaking to get real-time feedback..."]
  else
    let s : List String := []
    let s :=
      if posture.posture_status.getD "unknown" = "poor" ∧ posture_score > 0 then
        s ++ ["Sit up straight - align your shoulders with your hips"]
      else s
    let s :=
      if posture.eye_contact_status.getD "unknown" = "poor" ∧ eye_contact_score > 0 then
        s ++ ["Look directly at the camera for better engagement"]
      else s
    let pace_status := (speech.map (·.pace_status)).getD "ideal"
    let s :=
      if pace_status = "too_slow" ∧ wpm > 0 then
        s ++ ["Speak a bit faster to maintain audience interest"]
      else if pace_status = "too_fast" ∧ wpm > 0 then
        s ++ ["Slow down slightly for better clarity"]
      else s
    let filler_status := (speech.map (·.filler_status)).getD "low"
    let s :=
      if filler_status = "high" ∧ filler_rate > 0 then
        s ++ ["Practice pausing instead of using filler words"]
      else if filler_status = "medium" ∧ filler_rate > 0 then
        s ++ ["Watch for occasional filler words like \x27um\x27 or \x27like\x27"]
      else s
    let s :=
      if overall_score ≥ 80 ∧ s = [] then
        s ++ ["Great job! Your delivery is confident and clear"]
      else s
    let s := (dedupFirst s).take 3
    if s = [] then ["Keep practicing and you\x27ll improve!"] else s

/-- `RealtimeFeedback._calculate_overall_score` on the combined
feedback; the division by `total_weight` sits under its positivity
guard. -/
def _calculate_overall_score (posture : PostureFB) (speech : Option SpeechFB) : ℤ :=
  let posture_score : ℚ := (posture.score : ℚ)
  let eye_contact_score : ℚ := ((posture.eye_contact_score.getD 0 : ℤ) : ℚ)
  let wpm : ℚ := (((speech.map (·.current_wpm)).getD 0 : ℤ) : ℚ)
  let filler_rate : ℚ := (((speech.map (·.filler_rate)).getD 0 : ℕ) : ℚ)
  let pace_score : ℚ :=
    if 140 ≤ wpm ∧ wpm ≤ 160 then 100
    else if wpm = 0 then 50
    else max 0 (100 - |wpm - 150| * 2)
  let filler_score : ℚ :=
    if filler_rate > 0 then max 0 (100 - filler_rate * 10) else 100
  if posture_score = 0 ∧ eye_contact_score = 0 then 50
  else
    let weighted_score :=
      (if posture_score > 0 then posture_score * (3/10) else 0) +
      (if eye_contact_score > 0 then eye_contact_score * (3/10) else 0) +
      pace_score * (25/100) + filler_score * (15/100)
    let total_weight :=
      (if posture_score > 0 then (3/10 : ℚ) else 0) +
      (if eye_contact_score > 0 then (3/10 : ℚ) else 0) +
      25/100 + 15/100
    let overall_score := if total_weight > 0 then weighted_score / total_weight else 50
    pyTrunc (max 0 (min 100 overall_score))

/-- `RealtimeFeedback._determine_alert_level`. -/
def _determine_alert_level (posture : PostureFB) (speech : Option SpeechFB) : String :=
  let score := _calculate_overall_score posture speech
  if score ≥ 80 then "excellent"
  else if score ≥ 60 then "good"
  else if score ≥ 40 then "needs_improvement"
  else "poor"

/-- `RealtimeFeedback._update_session_metrics`. -/
def _update_session_metrics (session : Session) (posture : PostureFB)
    (speech : Option SpeechFB) (timestamp : ℚ) : Session :=
  { session with metrics_history := {
      posture := session.metrics_history.posture ++ [⟨timestamp, (posture.score : ℚ)⟩]
      eye_contact := session.metrics_history.eye_contact ++
        [⟨timestamp, ((posture.eye_contact_score.getD 0 : ℤ) : ℚ)⟩]
      pace := session.metrics_history.pace ++
        [⟨timestamp, (((speech.map (·.current_wpm)).getD 0 : ℤ) : ℚ)⟩]
      filler_rate := session.metrics_history.filler_rate ++
        [⟨timestamp, (((speech.map (·.filler_rate)).getD 0 : ℕ) : ℚ)⟩] } }

/-- `RealtimeFeedback._get_empty_feedback`. -/
def _get_empty_feedback (now : ℚ) : Feedback :=
  ⟨now, ⟨0, none, none, none, none, none, none, none⟩, none, [], 0, "unknown"⟩

/-- `RealtimeFeedback.start_session`. -/
def start_session (st : RTState) (id : String) (now : ℚ) : RTState :=
  { active_sessions := alistSet st.active_sessions id
      ⟨now, [], [], [], ⟨0, none, 0⟩, [], ⟨[], [], [], []⟩⟩
    feedback_history := alistSet st.feedback_history id [] }

/-- `RealtimeFeedback.analyze_frame`. An unknown session id returns the
empty feedback unchanged-state. `start_session` always creates the
`feedback_history[id]` entry of an active session, hence the `.getD []`
on that read can only see the list `start_session` installed. A falsy
audio chunk (absent or the empty string) skips speech analysis. -/
def analyze_frame (st : RTState) (id : String) (posture_data : Option PDict)
    (audio_chunk : Option String) (now rand : ℚ) : RTState × Feedback :=
  match alistGet st.active_sessions id with
  | none => (st, _get_empty_feedback now)
  | some session =>
    let pr := _analyze_posture session posture_data
    let sr : Session × Option SpeechFB :=
      match audio_chunk with
      | none => (pr.1, none)
      | some a =>
        if a = "" then (pr.1, none)
        else
          let r := _analyze_speech pr.1 now rand
          (r.1, some r.2)
    let suggestions := _generate_suggestions pr.2 sr.2 0
    let overall := _calculate_overall_score pr.2 sr.2
    let alert := _determine_alert_level pr.2 sr.2
    let session2 := _update_session_metrics sr.1 pr.2 sr.2 now
    let fb : Feedback := ⟨now, pr.2, sr.2, suggestions, overall, alert⟩
    let session3 :=
      { session2 with feedback_messages := dequeAppend 10 session2.feedback_messages fb }
    ({ active_sessions := alistSet st.active_sessions id session3
       feedback_history := alistSet st.feedback_history id
         (((alistGet st.feedback_history id).getD []) ++ [fb]) },
     fb)

/-- `RealtimeFeedback.end_session`: both `del` statements are guarded by
an `in` test; `none` models an uncaught KeyError. -/
def end_session (st : RTState) (id : String) : Option RTState := do
  let a ←
    if (alistGet st.active_sessions id).isSome then alistDel? st.active_sessions id
    else pure st.active_sessions
  let h ←
    if (alistGet st.feedback_history id).isSome then alistDel? st.feedback_history id
    else pure st.feedback_history
  pure ⟨a, h⟩

end Realtime

/-! ### Auxiliary quantities and concrete inputs used by the claims -/

/-- Number of buckets holding at least one (positive) posture sample —
the only buckets the posture breakdown classifies. -/
def postureBucketCount (l : List (ℤ × Bucket)) : ℕ :=
  (l.filter (fun p => p.2.posture_scores ≠ [])).length

/-- Length of the feedback-history list of a session id. -/
def histLen (st : RTState) (id : String) : ℕ :=
  ((alistGet st.feedback_history id).getD []).length

/-- Concrete posture analysis with perfect averages and a fully "good"
breakdown: posture category total 98, eye-contact category total 100. -/
def paC1 : PostureAnalysis :=
  { summary := {
      average_posture_score := 100
      average_eye_contact_score := 100
      posture_breakdown := ⟨100, 0, 0⟩
      eye_contact_breakdown := ⟨100, 0, 0⟩
      total_recording_seconds := 1 }
    second_by_second := []
    recording_time := 1 }

/-- Raw posture data with one positive posture sample in second 0 and
one eye-contact-only sample in second 1. -/
def rawC2 : RawPostureData := ⟨[⟨0, 90⟩], [⟨1, 80⟩]⟩

/-- Raw posture data of claim C6: posture samples
(0, 90), (0, 10), (1, 85) and no eye-contact samples. -/
def rawC6 : RawPostureData := ⟨[⟨0, 90⟩, ⟨0, 10⟩, ⟨1, 85⟩], []⟩

/-- Three occurrences of "go", each starting 0.5 s after the previous
one (0.2 s gaps), as in claim C9. -/
def wordsC9 : List WordT := [⟨"go", 0, 3/10⟩, ⟨"go", 1/2, 8/10⟩, ⟨"go", 1, 13/10⟩]

/-- The frame payload `{posture_score: 0, eye_contact_score: 0}` of
claim C4. -/
def pdC4 : PDict := ⟨some 0, some 0, none, none⟩

/-- The state reached after `start_session("s")` on a fresh instance
followed by `n` calls of
`analyze_frame("s", {posture_score: 80, eye_contact_score: 80}, None)`. -/
def iterC5 : ℕ → RTState
  | 0 => Realtime.start_session ⟨[], []⟩ "s" 0
  | n + 1 =>
    (Realtime.analyze_frame (iterC5 n) "s" (some ⟨some 80, some 80, none, none⟩)
      none ((n : ℚ) + 1) 1).1

/-! ## Theorems

General evaluation lemmas for the Python-rounding helpers, the
association lists and the bounded deque, followed by one theorem per
claim (with its witness or counterexample). -/

theorem div?_of_ne (a : ℚ) {b : ℚ} (h : b ≠ 0) : div? a b = some (a / b) := by
  simp [div?, h]

theorem roundHalfEven_eq_lo {q : ℚ} {n : ℤ} (h0 : (n : ℚ) ≤ q) (h1 : q < n + 1/2) :
    roundHalfEven q = n := by
  have hf : ⌊q⌋ = n := Int.floor_eq_iff.mpr ⟨h0, by linarith⟩
  have h2 : q - (n : ℚ) < 1/2 := by linarith
  simp only [roundHalfEven, hf]
  rw [if_pos h2]

theorem roundHalfEven_eq_hi {q : ℚ} {n : ℤ} (h0 : (n : ℚ) + 1/2 < q) (h1 : q < n + 1) :
    roundHalfEven q = n + 1 := by
  have hf : ⌊q⌋ = n := Int.floor_eq_iff.mpr ⟨by linarith, by linarith⟩
  have h2 : ¬ q - (n : ℚ) < 1/2 := by linarith
  have h3 : (1 : ℚ)/2 < q - n := by linarith
  simp only [roundHalfEven, hf]
  rw [if_neg h2, if_pos h3]

theorem pyRound1_eq_lo {q : ℚ} {n : ℤ} (h0 : (n : ℚ) ≤ q * 10) (h1 : q * 10 < n + 1/2) :
    pyRound1 q = n / 10 := by
  unfold pyRound1
  rw [roundHalfEven_eq_lo h0 h1]

theorem pyRound1_eq_hi {q : ℚ} {n : ℤ} (h0 : (n : ℚ) + 1/2 < q * 10) (h1 : q * 10 < n + 1) :
    pyRound1 q = ((n : ℚ) + 1) / 10 := by
  unfold pyRound1
  rw [roundHalfEven_eq_hi h0 h1]
  push_cast
  ring

theorem abs_roundHalfEven_sub (q : ℚ) : |(roundHalfEven q : ℚ) - q| ≤ 1/2 := by
  have h0 := Int.floor_le q
  have h1 := Int.lt_floor_add_one q
  simp only [roundHalfEven]
  split_ifs with a b c <;> rw [abs_le] <;> constructor <;> push_cast <;> linarith

theorem abs_pyRound1_sub (q : ℚ) : |pyRound1 q - q| ≤ 1/20 := by
  have h := abs_roundHalfEven_sub (q * 10)
  have e : pyRound1 q - q = ((roundHalfEven (q * 10) : ℚ) - q * 10) / 10 := by
    unfold pyRound1; ring
  rw [e, abs_div]
  rw [show |(10 : ℚ)| = 10 by norm_num]
  linarith

theorem alistGet_set_self {α β : Type} [DecidableEq α] (l : List (α × β)) (k : α) (v : β) :
    alistGet (alistSet l k v) k = some v := by
  induction l with
  | nil => simp [alistSet, alistGet]
  | cons p t ih =>
    by_cases h : p.1 = k
    · simp [alistSet, alistGet, h]
    · simp [alistSet, alistGet, h, ih]

theorem alistDel?_isSome {α β : Type} [DecidableEq α] (l : List (α × β)) (k : α)
    (h : (alistGet l k).isSome) : (alistDel? l k).isSome := by
  induction l with
  | nil => simp [alistGet] at h
  | cons p t ih =>
    by_cases hk : p.1 = k
    · simp [alistDel?, hk]
    · simp [alistGet, hk] at h
      simp [alistDel?, hk, Option.isSome_map]
      exact ih h

theorem dequeAppend_length_le {α : Type} (n : ℕ) (xs : List α) (x : α) :
    (dequeAppend n xs x).length ≤ n := by
  simp only [dequeAppend]
  split_ifs with h
  · simp only [List.length_drop, List.length_append, List.length_cons, List.length_nil] at h ⊢
    omega
  · simp only [List.length_append, List.length_cons, List.length_nil] at h ⊢
    omega

theorem end_session_total (st : RTState) (id : String) :
    ∃ st1, Realtime.end_session st id = some st1 := by
  by_cases ha : (alistGet st.active_sessions id).isSome
  · obtain ⟨a', ha'⟩ := Option.isSome_iff_exists.mp (alistDel?_isSome _ _ ha)
    by_cases hh : (alistGet st.feedback_history id).isSome
    · obtain ⟨h', hh'⟩ := Option.isSome_iff_exists.mp (alistDel?_isSome _ _ hh)
      exact ⟨⟨a', h'⟩, by simp [Realtime.end_session, ha, hh, ha', hh']⟩
    · exact ⟨⟨a', st.feedback_history⟩, by simp [Realtime.end_session, ha, hh, ha']⟩
  · by_cases hh : (alistGet st.feedback_history id).isSome
    · obtain ⟨h', hh'⟩ := Option.isSome_iff_exists.mp (alistDel?_isSome _ _ hh)
      exact ⟨⟨st.active_sessions, h'⟩, by simp [Realtime.end_session, ha, hh, hh']⟩
    · exact ⟨⟨st.active_sessions, st.feedback_history⟩, by simp [Realtime.end_session, ha, hh]⟩

/-- C8: `end_session` twice in a row never raises (the guarded `del`
statements always succeed), and `analyze_frame` on a session id that
was never started returns the empty feedback — zero overall score,
empty suggestions, alert level "unknown" — leaving the state unchanged,
rather than raising. -/
theorem C8_end_session_twice_and_unknown_id (st : RTState) (id : String) :
    (∃ st1 st2, Realtime.end_session st id = some st1 ∧
      Realtime.end_session st1 id = some st2) ∧
    (∀ (pd : Option PDict) (audio : Option String) (now rand : ℚ),
      alistGet st.active_sessions id = none →
      Realtime.analyze_frame st id pd audio now rand = (st, Realtime._get_empty_feedback now) ∧
      (Realtime._get_empty_feedback now).overall_score = 0 ∧
      (Realtime._get_empty_feedback now).suggestions = [] ∧
      (Realtime._get_empty_feedback now).alert_level = "unknown") := by
  constructor
  · obtain ⟨st1, h1⟩ := end_session_total st id
    obtain ⟨st2, h2⟩ := end_session_total st1 id
    exact ⟨st1, st2, h1, h2⟩
  · intro pd audio now rand h
    exact ⟨by simp [Realtime.analyze_frame, h], rfl, rfl, rfl⟩

theorem C8_end_session_twice_and_unknown_id_witness :
    (∃ st1 st2, Realtime.end_session ⟨[], []⟩ "x" = some st1 ∧
      Realtime.end_session st1 "x" = some st2) ∧
    alistGet (RTState.mk [] []).active_sessions "x" = none ∧
    Realtime.analyze_frame ⟨[], []⟩ "x" none none 3 0 =
      (⟨[], []⟩, Realtime._get_empty_feedback 3) := by
  refine ⟨(C8_end_session_twice_and_unknown_id ⟨[], []⟩ "x").1, rfl, ?_⟩
  exact ((C8_end_session_twice_and_unknown_id ⟨[], []⟩ "x").2 none none 3 0 rfl).1

theorem analyze_frame_found (st : RTState) (id : String) (pd : Option PDict)
    (audio : Option String) (now rand : ℚ) (sess : Session)
    (h : alistGet st.active_sessions id = some sess) :
    ((alistGet (Realtime.analyze_frame st id pd audio now rand).1.feedback_history id).getD [])
      = ((alistGet st.feedback_history id).getD [])
        ++ [(Realtime.analyze_frame st id pd audio now rand).2] ∧
    ∃ sess', alistGet (Realtime.analyze_frame st id pd audio now rand).1.active_sessions id
        = some sess' ∧ sess'.feedback_messages.length ≤ 10 := by
  simp only [Realtime.analyze_frame, h]
  refine ⟨?_, ?_⟩
  · simp [alistGet_set_self]
  · refine ⟨_, alistGet_set_self _ _ _, ?_⟩
    exact dequeAppend_length_le _ _ _

theorem iterC5_invariant (n : ℕ) :
    (alistGet (iterC5 n).active_sessions "s").isSome ∧ histLen (iterC5 n) "s" = n := by
  induction n with
  | zero =>
    constructor
    · simp [iterC5, Realtime.start_session, alistGet_set_self]
    · simp [iterC5, Realtime.start_session, histLen, alistGet_set_self]
  | succ n ih =>
    obtain ⟨sess, hs⟩ := Option.isSome_iff_exists.mp ih.1
    have step := analyze_frame_found (iterC5 n) "s" (some ⟨some 80, some 80, none, none⟩)
      none ((n : ℚ) + 1) 1 sess hs
    obtain ⟨sess', hs', _⟩ := step.2
    have h2 : ((alistGet (iterC5 n).feedback_history "s").getD []).length = n := ih.2
    constructor
    · rw [iterC5, hs']
      rfl
    · show histLen (Realtime.analyze_frame (iterC5 n) "s"
        (some ⟨some 80, some 80, none, none⟩) none ((n : ℚ) + 1) 1).1 "s" = n + 1
      unfold histLen
      rw [step.1, List.length_append, h2]
      rfl

/-- C5 (corrected): each successful `analyze_frame` call appends the
full feedback object to the per-session feedback history — a plain
unbounded list — and to the recent-message buffer, a deque capped at
10; the buffer never exceeds 10 entries, but the feedback history grows
by one entry per call without bound. -/
theorem C5_feedback_buffers (st : RTState) (id : String) (pd : Option PDict)
    (audio : Option String) (now rand : ℚ) (sess : Session)
    (h : alistGet st.active_sessions id = some sess) :
    ((alistGet (Realtime.analyze_frame st id pd audio now rand).1.feedback_history id).getD [])
      = ((alistGet st.feedback_history id).getD [])
        ++ [(Realtime.analyze_frame st id pd audio now rand).2] ∧
    (∀ sess', alistGet (Realtime.analyze_frame st id pd audio now rand).1.active_sessions id
        = some sess' → sess'.feedback_messages.length ≤ 10) := by
  have step := analyze_frame_found st id pd audio now rand sess h
  refine ⟨step.1, ?_⟩
  intro sess' hs'
  obtain ⟨sess'', hs'', hlen⟩ := step.2
  rw [hs'] at hs''
  cases hs''
  exact hlen

theorem C5_feedback_buffers_witness :
    ∃ sess, alistGet (iterC5 0).active_sessions "s" = some sess ∧
      ((alistGet (Realtime.analyze_frame (iterC5 0) "s" none none 1 0).1.feedback_history
        "s").getD [])
        = ((alistGet (iterC5 0).feedback_history "s").getD [])
          ++ [(Realtime.analyze_frame (iterC5 0) "s" none none 1 0).2] := by
  refine ⟨⟨0, [], [], [], ⟨0, none, 0⟩, [], ⟨[], [], [], []⟩⟩, rfl, ?_⟩
  exact (C5_feedback_buffers (iterC5 0) "s" none none 1 0 _ rfl).1

/-- C5 counterexample: the feedback history is not capped — its length
after `n` frames of one session is exactly `n`, hence no bound `B`
dominates it. -/
theorem C5_history_not_capped : ¬ ∃ B : ℕ, ∀ n : ℕ, histLen (iterC5 n) "s" ≤ B := by
  rintro ⟨B, hB⟩
  have h1 := (iterC5_invariant (B + 1)).2
  have h2 := hB (B + 1)
  omega

/-- C7: the filler sub-score is 100 up to 3 fillers per minute, decays
by 10 points per unit on (3, 10] (value 30 at rate 10), then by 5 points
per unit from the value 50 at rate 10 with a floor of 0 (value 25 at
rate 15), and is never negative. -/
theorem C7_filler_score_piecewise (r : ℚ) :
    (r ≤ 3 → _calculate_filler_score r = 100) ∧
    (3 < r → r ≤ 10 → _calculate_filler_score r = 100 - (r - 3) * 10) ∧
    (10 < r → _calculate_filler_score r = max 0 (50 - (r - 10) * 5)) ∧
    _calculate_filler_score 10 = 30 ∧
    _calculate_filler_score 15 = 25 ∧
    0 ≤ _calculate_filler_score r := by
  unfold _calculate_filler_score
  refine ⟨fun h => by simp [h], fun h3 h10 => ?_, fun h10 => ?_, by norm_num, by norm_num, ?_⟩
  · rw [if_neg (by linarith), if_pos h10, max_eq_right (by linarith)]
  · rw [if_neg (by linarith), if_neg (by linarith)]
  · split_ifs <;> simp [le_max_left]

theorem C7_filler_score_piecewise_witness :
    ((4 : ℚ) ≤ 3 → _calculate_filler_score 4 = 100) ∧
    (3 < (4 : ℚ) ∧ (4 : ℚ) ≤ 10 ∧ _calculate_filler_score 4 = 100 - (4 - 3) * 10) ∧
    (10 < (12 : ℚ) ∧ _calculate_filler_score 12 = max 0 (50 - (12 - 10) * 5)) := by
  refine ⟨fun h => absurd h (by norm_num), ⟨by norm_num, by norm_num, ?_⟩, ⟨by norm_num, ?_⟩⟩
  · exact (C7_filler_score_piecewise 4).2.1 (by norm_num) (by norm_num)
  · exact (C7_filler_score_piecewise 12).2.2.1 (by norm_num)

theorem _calculate_pause_score_total (pd : PauseOut) (d : ℚ) :
    ∃ v, _calculate_pause_score pd d = some v := by
  unfold _calculate_pause_score
  by_cases hd : d = 0
  · exact ⟨0, by simp [hd]⟩
  · have e1 := div?_of_ne pd.total_duration hd
    have e2 : ∀ a : ℚ, div? a (1/10) = some (a / (1/10)) :=
      fun a => div?_of_ne a (by norm_num)
    have e3 : ∀ a : ℚ, div? a (3/10) = some (a / (3/10)) :=
      fun a => div?_of_ne a (by norm_num)
    rw [if_neg hd]
    simp only [e1, e2, e3, Option.bind_eq_bind', Option.some_bind]
    split_ifs <;> exact ⟨_, rfl⟩

theorem _calculate_grammar_score_total (gd : GrammarOut) (wc : ℕ) :
    ∃ v, _calculate_grammar_score gd wc = some v := by
  unfold _calculate_grammar_score
  by_cases h : wc = 0
  · exact ⟨0, by simp [h]⟩
  · have e : div? (gd.count : ℚ) (wc : ℚ) = some ((gd.count : ℚ) / (wc : ℚ)) :=
      div?_of_ne _ (Nat.cast_ne_zero.mpr h)
    rw [if_neg h]
    simp only [e, Option.bind_eq_bind', Option.some_bind]
    split_ifs <;> exact ⟨_, rfl⟩

theorem sumVals_weights_speech : sumVals weights_speech = 35/100 := by
  norm_num [sumVals, weights_speech]

theorem _calculate_speech_scores_total (sa : Option SpeechAnalysis) :
    ∃ v, _calculate_speech_scores sa = some v := by
  match sa with
  | none => exact ⟨⟨0, []⟩, rfl⟩
  | some s =>
    unfold _calculate_speech_scores
    obtain ⟨p, hp⟩ := _calculate_pause_score_total s.pauses s.duration_seconds
    obtain ⟨g, hg⟩ := _calculate_grammar_score_total s.grammar_errors s.word_count
    have hw : ∀ a : ℚ, div? a (sumVals weights_speech) = some (a / (sumVals weights_speech)) :=
      fun a => div?_of_ne a (by rw [sumVals_weights_speech]; norm_num)
    by_cases hd : s.duration_seconds > 0
    · have e1 := div?_of_ne (s.filler_words.total_count : ℚ) (ne_of_gt hd)
      simp only [if_pos hd, e1, hp, hg, hw, Option.bind_eq_bind', Option.some_bind]
      exact ⟨_, rfl⟩
    · simp only [if_neg hd, hp, hg, hw, Option.bind_eq_bind', Option.some_bind]
      exact ⟨_, rfl⟩

theorem _calculate_relevance_score_total (t : String) (tk : Option (List String)) :
    ∃ v, _calculate_relevance_score t tk = some v := by
  match tk with
  | none => exact ⟨50, rfl⟩
  | some ks =>
    unfold _calculate_relevance_score
    dsimp only
    by_cases h : ks = [] ∨ t = ""
    · exact ⟨50, by rw [if_pos h]⟩
    · have hne : (ks.length : ℚ) ≠ 0 := by
        have : ks ≠ [] := fun hk => h (Or.inl hk)
        simpa using fun hl => this (List.length_eq_zero.mp hl)
      rw [if_neg h]
      simp only [div?_of_ne _ hne, Option.bind_eq_bind', Option.some_bind]
      exact ⟨_, rfl⟩

theorem _calculate_structure_score_total (t : String) (wc : ℕ) :
    ∃ v, _calculate_structure_score t wc = some v := by
  unfold _calculate_structure_score
  by_cases h1 : wc < 50
  · exact ⟨50, by rw [if_pos h1]⟩
  · rw [if_neg h1]
    by_cases h2 : ((pySplitOnChar '.' t).filter (fun s => (stripWs s).length > 0)).length = 0
    · exact ⟨50, by rw [if_pos h2]⟩
    · have hne : ((((pySplitOnChar '.' t).filter (fun s => (stripWs s).length > 0)).length : ℕ) : ℚ) ≠ 0 :=
        Nat.cast_ne_zero.mpr h2
      rw [if_neg h2]
      simp only [div?_of_ne _ hne, Option.bind_eq_bind', Option.some_bind]
      split_ifs <;> exact ⟨_, rfl⟩

theorem _calculate_vocabulary_score_total (s : SpeechAnalysis) :
    ∃ v, _calculate_vocabulary_score s = some v := by
  unfold _calculate_vocabulary_score
  by_cases h1 : s.word_count < 20
  · exact ⟨50, by rw [if_pos h1]⟩
  · rw [if_neg h1]
    by_cases h2 : ((pySplitWs (pyLower s.transcript)).filter (fun w => w.length > 2)) = []
    · exact ⟨50, by rw [if_pos h2]⟩
    · have hne : ((((pySplitWs (pyLower s.transcript)).filter
          (fun w => w.length > 2)).length : ℕ) : ℚ) ≠ 0 := by
        simpa using fun hl => h2 (List.length_eq_zero.mp hl)
      rw [if_neg h2]
      simp only [div?_of_ne _ hne, Option.bind_eq_bind', Option.some_bind]
      split_ifs <;> exact ⟨_, rfl⟩

theorem _calculate_content_score_total (sa : Option SpeechAnalysis)
    (tk : Option (List String)) : ∃ v, _calculate_content_score sa tk = some v := by
  match sa with
  | none => exact ⟨⟨0, []⟩, rfl⟩
  | some s =>
    unfold _calculate_content_score
    obtain ⟨r, hr⟩ := _calculate_relevance_score_total (pyLower s.transcript) tk
    obtain ⟨t, ht⟩ := _calculate_structure_score_total (pyLower s.transcript) s.word_count
    obtain ⟨v, hv⟩ := _calculate_vocabulary_score_total s
    simp only [hr, ht, hv, Option.bind_eq_bind', Option.some_bind]
    exact ⟨_, rfl⟩

/-- The scoring engine never raises: every modelled division of
`calculate_overall_score` is guarded, hence the `except` fallback to
the empty score is unreachable. -/
theorem calculate_overall_score_total (pa : Option PostureAnalysis)
    (sa : Option SpeechAnalysis) (tk : Option (List String)) :
    ∃ r, calculate_overall_score pa sa tk = some r := by
  unfold calculate_overall_score
  obtain ⟨ss, hss⟩ := _calculate_speech_scores_total sa
  obtain ⟨cs, hcs⟩ := _calculate_content_score_total sa tk
  simp only [hss, hcs, Option.bind_eq_bind', Option.some_bind]
  exact ⟨_, rfl⟩

/-- C1 (corrected): the total is the weighted sum of the five category
totals, but posture and eye contact are weighted by their `'score'`
component weight alone (0.15 and 0.10) — not by the sum of their
category's weight constants (0.25 and 0.15) — while speech, content and
delivery are weighted by their category sums (0.35, 0.25, 0.10); the
five multipliers that are actually applied sum to 0.95, not 1.0, and
the returned total is that weighted sum rounded to one decimal. -/
theorem C1_total_weighted_sum (pa : Option PostureAnalysis) (sa : Option SpeechAnalysis)
    (tk : Option (List String)) (r : ScoreResult)
    (h : calculate_overall_score pa sa tk = some r) :
    ∃ ss cs, _calculate_speech_scores sa = some ss ∧
      _calculate_content_score sa tk = some cs ∧
      r.total = pyRound1 ((_calculate_posture_score pa).total * (15/100) +
        (_calculate_eye_contact_score pa).total * (10/100) +
        ss.total * (35/100) + cs.total * (25/100) +
        (_calculate_delivery_score sa).total * (10/100)) ∧
      wget weights_posture "score" = 15/100 ∧ sumVals weights_posture = 25/100 ∧
      wget weights_eye_contact "score" = 10/100 ∧ sumVals weights_eye_contact = 15/100 ∧
      (15/100 : ℚ) + 10/100 + sumVals weights_speech + sumVals weights_content +
        sumVals weights_delivery = 95/100 := by
  obtain ⟨ss, hss⟩ := _calculate_speech_scores_total sa
  obtain ⟨cs, hcs⟩ := _calculate_content_score_total sa tk
  unfold calculate_overall_score at h
  rw [hss, hcs] at h
  simp only [Option.bind_eq_bind', Option.some_bind, Option.pure_def, Option.some.injEq] at h
  subst h
  refine ⟨ss, cs, hss, hcs, ?_, rfl, by norm_num [sumVals, weights_posture], rfl,
    by norm_num [sumVals, weights_eye_contact], ?_⟩
  · show pyRound1 (_ * wget weights_posture "score" + _ * wget weights_eye_contact "score" +
      _ * sumVals weights_speech + _ * sumVals weights_content +
      _ * sumVals weights_delivery) = _
    rw [show wget weights_posture "score" = 15/100 from rfl,
      show wget weights_eye_contact "score" = 10/100 from rfl,
      sumVals_weights_speech,
      show sumVals weights_content = 25/100 by norm_num [sumVals, weights_content],
      show sumVals weights_delivery = 10/100 by norm_num [sumVals, weights_delivery]]
  · rw [sumVals_weights_speech,
      show sumVals weights_content = 25/100 by norm_num [sumVals, weights_content],
      show sumVals weights_delivery = 10/100 by norm_num [sumVals, weights_delivery]]
    norm_num

theorem C1_total_weighted_sum_witness :
    ∃ r ss cs, calculate_overall_score none none none = some r ∧
      _calculate_speech_scores none = some ss ∧
      _calculate_content_score none none = some cs ∧
      r.total = pyRound1 ((_calculate_posture_score none).total * (15/100) +
        (_calculate_eye_contact_score none).total * (10/100) +
        ss.total * (35/100) + cs.total * (25/100) +
        (_calculate_delivery_score none).total * (10/100)) := by
  obtain ⟨r, hr⟩ := calculate_overall_score_total none none none
  obtain ⟨ss, cs, hss, hcs, htot, _⟩ := C1_total_weighted_sum none none none r hr
  exact ⟨r, ss, cs, hr, hss, hcs, htot⟩

theorem eval_posture_paC1 : _calculate_posture_score (some paC1) =
    ⟨98, [("base_score", 100), ("consistency", 100), ("trend", 80)]⟩ := by
  norm_num [_calculate_posture_score, paC1]

theorem eval_eye_paC1 : _calculate_eye_contact_score (some paC1) =
    ⟨100, [("base_score", 100), ("consistency", 100)]⟩ := by
  norm_num [_calculate_eye_contact_score, paC1]

theorem eval_speech_empty :
    _calculate_speech_scores (some SpeechAnalyzer._get_empty_analysis) =
      some ⟨300/7, [("wpm", 0), ("filler_words", 100), ("pauses", 0),
        ("repetition", 100), ("grammar", 0)]⟩ := by
  have w1 : wget weights_speech "wpm" = 10/100 := rfl
  have w2 : wget weights_speech "filler_words" = 10/100 := rfl
  have w3 : wget weights_speech "pauses" = 5/100 := rfl
  have w4 : wget weights_speech "repetition" = 5/100 := rfl
  have w5 : wget weights_speech "grammar" = 5/100 := rfl
  norm_num [_calculate_speech_scores, SpeechAnalyzer._get_empty_analysis,
    _calculate_wpm_score, _calculate_filler_score, _calculate_pause_score,
    _calculate_repetition_score, _calculate_grammar_score, div?,
    w1, w2, w3, w4, w5, sumVals_weights_speech]

theorem eval_content_empty (tk : Option (List String)) :
    _calculate_content_score (some SpeechAnalyzer._get_empty_analysis) tk =
      some ⟨50, [("relevance", 50), ("structure", 50), ("vocabulary", 50)]⟩ := by
  have hlow : pyLower "" = "" := rfl
  rcases tk with _ | ks
  · norm_num [_calculate_content_score, SpeechAnalyzer._get_empty_analysis,
      _calculate_relevance_score, _calculate_structure_score,
      _calculate_vocabulary_score, hlow]
  · norm_num [_calculate_content_score, SpeechAnalyzer._get_empty_analysis,
      _calculate_relevance_score, _calculate_structure_score,
      _calculate_vocabulary_score, hlow]

theorem eval_delivery_empty :
    _calculate_delivery_score (some SpeechAnalyzer._get_empty_analysis) =
      ⟨92, [("pace_consistency", 100), ("volume_stability", 80)]⟩ := by
  norm_num [_calculate_delivery_score, SpeechAnalyzer._get_empty_analysis]

/-- C1 counterexample: with the posture analysis `paC1` (posture
category total 98, eye-contact total 100) and the empty speech
analysis, the code returns total 61.4 = `round(98·0.15 + 100·0.10 +
(300/7)·0.35 + 50·0.25 + 92·0.10, 1)`, while the claimed formula — each
category total times the sum of that category's weight constants —
yields 76.2; moreover those aggregate weight sums are 0.25, 0.15, 0.35,
0.25, 0.10, adding to 1.1, not 1.0. -/
theorem C1_counterexample :
    (calculate_overall_score (some paC1) (some SpeechAnalyzer._get_empty_analysis) none).map
      (fun r => r.total) = some (307/5) ∧
    (_calculate_posture_score (some paC1)).total = 98 ∧
    (_calculate_eye_contact_score (some paC1)).total = 100 ∧
    (_calculate_speech_scores (some SpeechAnalyzer._get_empty_analysis)).map
      (fun s => s.total) = some (300/7) ∧
    (_calculate_content_score (some SpeechAnalyzer._get_empty_analysis) none).map
      (fun s => s.total) = some 50 ∧
    (_calculate_delivery_score (some SpeechAnalyzer._get_empty_analysis)).total = 92 ∧
    pyRound1 (98 * sumVals weights_posture + 100 * sumVals weights_eye_contact +
      (300/7) * sumVals weights_speech + 50 * sumVals weights_content +
      92 * sumVals weights_delivery) = 381/5 ∧
    (307/5 : ℚ) ≠ 381/5 ∧
    sumVals weights_posture + sumVals weights_eye_contact + sumVals weights_speech +
      sumVals weights_content + sumVals weights_delivery = 11/10 := by
  have hsum : ∀ q : ℚ, q = 98 * sumVals weights_posture + 100 * sumVals weights_eye_contact +
      (300/7) * sumVals weights_speech + 50 * sumVals weights_content +
      92 * sumVals weights_delivery → q = 381/5 := by
    intro q hq
    rw [hq]
    norm_num [sumVals, weights_posture, weights_eye_contact, weights_speech,
      weights_content, weights_delivery]
  refine ⟨?_, by rw [eval_posture_paC1], by rw [eval_eye_paC1],
    by rw [eval_speech_empty]; rfl, by rw [eval_content_empty]; rfl,
    by rw [eval_delivery_empty], ?_, by norm_num, ?_⟩
  · unfold calculate_overall_score
    rw [eval_speech_empty, eval_content_empty]
    simp only [Option.bind_eq_bind', Option.some_bind, Option.pure_def, Option.map_some']
    rw [eval_posture_paC1, eval_eye_paC1, eval_delivery_empty]
    rw [Option.some.injEq]
    show pyRound1 _ = _
    rw [pyRound1_eq_lo (n := 614) (by norm_num [wget, sumVals, weights_posture,
      weights_eye_contact, weights_speech, weights_content, weights_delivery])
      (by norm_num [wget, sumVals, weights_posture, weights_eye_contact, weights_speech,
        weights_content, weights_delivery])]
    norm_num
  · rw [pyRound1_eq_lo (n := 762) (by norm_num [sumVals, weights_posture,
      weights_eye_contact, weights_speech, weights_content, weights_delivery])
      (by norm_num [sumVals, weights_posture, weights_eye_contact, weights_speech,
        weights_content, weights_delivery])]
    norm_num
  · norm_num [sumVals, weights_posture, weights_eye_contact, weights_speech,
      weights_content, weights_delivery]

/-- C3: a transcript payload whose extracted transcript text is empty
makes `analyze_transcript` return (without raising) the fully-populated
zero structure `_get_empty_analysis` — word_count 0, words_per_minute
0, zero/empty filler, pause, repetition, grammar and pace
sub-structures — and `calculate_overall_score` applied to that
structure succeeds (no division by zero) with speech category total
300/7 ≈ 42.86 (rounded breakdown 42.9), content 50 and delivery 92. -/
theorem C3_empty_transcript (sqrtF : ℚ → ℚ) (td : Option ResultsT)
    (pa : Option PostureAnalysis) (tk : Option (List String))
    (h : SpeechAnalyzer._extract_transcript_text td = "") :
    SpeechAnalyzer.analyze_transcript sqrtF td = some SpeechAnalyzer._get_empty_analysis ∧
    ∃ r, calculate_overall_score pa (some SpeechAnalyzer._get_empty_analysis) tk = some r ∧
      r.category_speech.total = 300/7 ∧ r.breakdown_speech = 429/10 ∧
      r.category_content.total = 50 ∧ r.category_delivery.total = 92 := by
  constructor
  · match td with
    | none => rfl
    | some rr =>
      have htrim : stripWs "" = "" := rfl
      simp only [SpeechAnalyzer.analyze_transcript, h, htrim, if_pos]
  · unfold calculate_overall_score
    rw [eval_speech_empty, eval_content_empty]
    simp only [Option.bind_eq_bind', Option.some_bind, Option.pure_def, Option.some.injEq]
    refine ⟨_, rfl, rfl, ?_, rfl, by rw [eval_delivery_empty]⟩
    show pyRound1 (300/7) = 429/10
    rw [pyRound1_eq_hi (n := 428) (by norm_num) (by norm_num)]
    norm_num

theorem C3_empty_transcript_witness :
    SpeechAnalyzer._extract_transcript_text none = "" ∧
    SpeechAnalyzer.analyze_transcript (fun q => q) none =
      some SpeechAnalyzer._get_empty_analysis ∧
    ∃ r, calculate_overall_score none (some SpeechAnalyzer._get_empty_analysis) none =
      some r ∧ r.category_speech.total = 300/7 ∧ r.breakdown_speech = 429/10 := by
  have h := C3_empty_transcript (fun q => q) none none none rfl
  obtain ⟨r, hr, h1, h2, _, _⟩ := h.2
  exact ⟨rfl, h.1, r, hr, h1, h2⟩

theorem postureCat?_sum (b : Bucket) :
    ∃ c, PostureAnalyzer.postureCat? b = some c ∧
      c.1 + c.2.1 + c.2.2 = (if b.posture_scores = [] then 0 else 1) := by
  unfold PostureAnalyzer.postureCat?
  by_cases h : b.posture_scores = []
  · exact ⟨(0, 0, 0), by rw [if_pos h], by simp [h]⟩
  · have hne : ((b.posture_scores.length : ℕ) : ℚ) ≠ 0 := by
      simpa using fun hl => h (List.length_eq_zero.mp hl)
    rw [if_neg h]
    simp only [mean?, div?_of_ne _ hne, Option.bind_eq_bind', Option.some_bind,
      Option.pure_def]
    refine ⟨_, rfl, ?_⟩
    rw [if_neg h]
    split_ifs <;> rfl

theorem eyeCat?_total (b : Bucket) : ∃ c, PostureAnalyzer.eyeCat? b = some c := by
  unfold PostureAnalyzer.eyeCat?
  by_cases h : b.eye_contact_scores = []
  · exact ⟨(0, 0, 0), by rw [if_pos h]⟩
  · have hne : ((b.eye_contact_scores.length : ℕ) : ℚ) ≠ 0 := by
      simpa using fun hl => h (List.length_eq_zero.mp hl)
    rw [if_neg h]
    simp only [mean?, div?_of_ne _ hne, Option.bind_eq_bind', Option.some_bind,
      Option.pure_def]
    exact ⟨_, rfl⟩

theorem sumCats_total (f : Bucket → Option (ℕ × ℕ × ℕ)) (hf : ∀ b, ∃ c, f b = some c)
    (l : List (ℤ × Bucket)) : ∃ c, PostureAnalyzer.sumCats f l = some c := by
  induction l with
  | nil => exact ⟨(0, 0, 0), rfl⟩
  | cons p t ih =>
    obtain ⟨c, hc⟩ := hf p.2
    obtain ⟨r, hr⟩ := ih
    refine ⟨(c.1 + r.1, c.2.1 + r.2.1, c.2.2 + r.2.2), ?_⟩
    simp [PostureAnalyzer.sumCats, hc, hr]

theorem sumCats_posture_count (l : List (ℤ × Bucket)) :
    ∃ g o b, PostureAnalyzer.sumCats PostureAnalyzer.postureCat? l = some (g, o, b) ∧
      g + o + b = postureBucketCount l := by
  induction l with
  | nil => exact ⟨0, 0, 0, rfl, rfl⟩
  | cons p t ih =>
    obtain ⟨g, o, b, hs, hc⟩ := ih
    obtain ⟨c, hcat, hsum⟩ := postureCat?_sum p.2
    refine ⟨c.1 + g, c.2.1 + o, c.2.2 + b,
      by simp [PostureAnalyzer.sumCats, hcat, hs], ?_⟩
    have hcons : postureBucketCount (p :: t) =
        (if p.2.posture_scores = [] then 0 else 1) + postureBucketCount t := by
      unfold postureBucketCount
      rw [List.filter_cons]
      by_cases hb : p.2.posture_scores = []
      · simp [hb]
      · simp [hb]
        omega
    rw [hcons]
    by_cases hb : p.2.posture_scores = []
    · rw [if_pos hb] at hsum ⊢
      omega
    · rw [if_neg hb] at hsum ⊢
      omega

theorem pct?_pos (c T : ℕ) (h : 0 < T) :
    PostureAnalyzer.pct? c T = some (pyRound1 ((c : ℚ) / (T : ℚ) * 100)) := by
  have hne : ((T : ℕ) : ℚ) ≠ 0 := Nat.cast_ne_zero.mpr (Nat.pos_iff_ne_zero.mp h)
  unfold PostureAnalyzer.pct?
  rw [if_pos h, div?_of_ne _ hne]
  rfl

theorem summary_stats_pct_sum (ps es : List ℚ) (sbs : List (ℤ × Bucket))
    (s : PostureSummary)
    (hs : PostureAnalyzer._calculate_summary_stats ps es sbs = some s)
    (hT : 0 < sbs.length) :
    |s.posture_breakdown.good_percentage + s.posture_breakdown.okay_percentage +
      s.posture_breakdown.bad_percentage -
      (postureBucketCount sbs : ℚ) / (sbs.length : ℚ) * 100| ≤ 3/20 := by
  obtain ⟨g, o, b, hgob, hcount⟩ := sumCats_posture_count sbs
  obtain ⟨ec, hec⟩ := sumCats_total PostureAnalyzer.eyeCat? eyeCat?_total sbs
  have havgp : ∃ v, PostureAnalyzer.avgOrZero? ps = some v := by
    unfold PostureAnalyzer.avgOrZero?
    by_cases h : ps = []
    · exact ⟨0, by simp [h]⟩
    · have hne : ((ps.length : ℕ) : ℚ) ≠ 0 := by
        simpa using fun hl => h (List.length_eq_zero.mp hl)
      exact ⟨ps.sum / (ps.length : ℚ), by simp [h, mean?, div?_of_ne _ hne]⟩
  have havge : ∃ v, PostureAnalyzer.avgOrZero? es = some v := by
    unfold PostureAnalyzer.avgOrZero?
    by_cases h : es = []
    · exact ⟨0, by simp [h]⟩
    · have hne : ((es.length : ℕ) : ℚ) ≠ 0 := by
        simpa using fun hl => h (List.length_eq_zero.mp hl)
      exact ⟨es.sum / (es.length : ℚ), by simp [h, mean?, div?_of_ne _ hne]⟩
  obtain ⟨vp, hvp⟩ := havgp
  obtain ⟨ve, hve⟩ := havge
  unfold PostureAnalyzer._calculate_summary_stats at hs
  simp only [hvp, hve, hgob, hec, Option.bind_eq_bind', Option.some_bind] at hs
  simp only [pct?_pos g _ hT, pct?_pos o _ hT, pct?_pos b _ hT,
    pct?_pos ec.1 _ hT, pct?_pos ec.2.1 _ hT, pct?_pos ec.2.2 _ hT,
    Option.bind_eq_bind', Option.some_bind, Option.pure_def, Option.some.injEq] at hs
  subst hs
  have hTne : ((sbs.length : ℕ) : ℚ) ≠ 0 := Nat.cast_ne_zero.mpr (Nat.pos_iff_ne_zero.mp hT)
  have e1 := abs_pyRound1_sub ((g : ℚ) / (sbs.length : ℚ) * 100)
  have e2 := abs_pyRound1_sub ((o : ℚ) / (sbs.length : ℚ) * 100)
  have e3 := abs_pyRound1_sub ((b : ℚ) / (sbs.length : ℚ) * 100)
  have hsum : (g : ℚ) / (sbs.length : ℚ) * 100 + (o : ℚ) / (sbs.length : ℚ) * 100 +
      (b : ℚ) / (sbs.length : ℚ) * 100 =
      (postureBucketCount sbs : ℚ) / (sbs.length : ℚ) * 100 := by
    rw [← hcount]
    push_cast
    ring
  rw [abs_le] at e1 e2 e3 ⊢
  constructor <;> dsimp only <;> linarith [hsum]

/-- C2 counterexample: the input with one positive posture sample at
second 0 and one eye-contact sample at second 1 yields posture
breakdown percentages 50 + 0 + 0 = 50, not 100: the eye-contact-only
bucket enters the denominator (2 buckets) although it holds no posture
sample. -/
theorem C2_counterexample :
    (∃ s ∈ rawC2.posture, s.score > 0) ∧
    (PostureAnalyzer.process_posture_data rawC2).map (fun r =>
      r.summary.posture_breakdown.good_percentage +
      r.summary.posture_breakdown.okay_percentage +
      r.summary.posture_breakdown.bad_percentage) = some 50 ∧
    (50 : ℚ) ≠ 100 := by
  refine ⟨⟨⟨0, 90⟩, by norm_num [rawC2], by norm_num⟩, ?_, by norm_num⟩
  have m1 : mean? [(90:ℚ)] = some 90 := by norm_num [mean?, div?]
  have m2 : mean? [(80:ℚ)] = some 80 := by norm_num [mean?, div?]
  have r90 : pyRound1 (90 : ℚ) = 90 := by
    rw [pyRound1_eq_lo (n := 900) (by norm_num) (by norm_num)]; norm_num
  have r80 : pyRound1 (80 : ℚ) = 80 := by
    rw [pyRound1_eq_lo (n := 800) (by norm_num) (by norm_num)]; norm_num
  have r50 : pyRound1 (50 : ℚ) = 50 := by
    rw [pyRound1_eq_lo (n := 500) (by norm_num) (by norm_num)]; norm_num
  have r0 : pyRound1 (0 : ℚ) = 0 := by
    rw [pyRound1_eq_lo (n := 0) (by norm_num) (by norm_num)]; norm_num
  have hQ : ∀ (x : ℚ) (l : List ℚ), (x :: l = []) = False := fun x l => by simp
  have hS : ∀ (x : Sample) (l : List Sample), (x :: l = []) = False := fun x l => by simp
  norm_num [PostureAnalyzer.process_posture_data, rawC2, PostureAnalyzer.processEntries,
    PostureAnalyzer._calculate_summary_stats, PostureAnalyzer.avgOrZero?, PostureAnalyzer.sumCats,
    PostureAnalyzer.postureCat?, PostureAnalyzer.eyeCat?, PostureAnalyzer.pct?,
    alistGet, alistMod, pyTrunc, mean?, div?, m1, m2, r90, r80, r50, r0, hQ, hS,
    Option.bind_eq_bind', Option.some_bind]

/-- C2 (corrected): the three posture breakdown percentages sum — up to
the three one-decimal roundings, each off by at most 0.05 — to
100 × (buckets with ≥ 1 positive posture sample) / (all buckets), where
the denominator counts every bucket any sample created: buckets holding
only eye-contact samples, or only zero-score samples, still enter the
denominator (though not the numerator), so the sum reaches 100 only
when every bucket has a positive posture sample. -/
theorem C2_breakdown_sum (raw : RawPostureData) (r : PostureAnalysis)
    (h : PostureAnalyzer.process_posture_data raw = some r)
    (hT : 0 < r.second_by_second.length) :
    |r.summary.posture_breakdown.good_percentage +
      r.summary.posture_breakdown.okay_percentage +
      r.summary.posture_breakdown.bad_percentage -
      (postureBucketCount r.second_by_second : ℚ) / (r.second_by_second.length : ℚ) * 100|
      ≤ 3/20 := by
  unfold PostureAnalyzer.process_posture_data at h
  split_ifs at h with hg
  · cases h
    simp [PostureAnalyzer._get_empty_analysis] at hT
  · rw [Option.bind_eq_bind'] at h
    obtain ⟨s, hstats, hk⟩ := Option.bind_eq_some.mp h
    simp only [Option.pure_def, Option.some.injEq] at hk
    subst hk
    exact summary_stats_pct_sum _ _ _ s hstats hT

theorem C2_breakdown_sum_witness :
    PostureAnalyzer.process_posture_data rawC2 = some
      ⟨⟨90, 80, ⟨50, 0, 0⟩, ⟨50, 0, 0⟩, 2⟩,
       [(0, ⟨[90], [], 1⟩), (1, ⟨[], [80], 1⟩)], 2⟩ ∧
    0 < ([(0, (⟨[90], [], 1⟩ : Bucket)), (1, ⟨[], [80], 1⟩)]).length ∧
    |(50 : ℚ) + 0 + 0 -
      (postureBucketCount [(0, ⟨[90], [], 1⟩), (1, ⟨[], [80], 1⟩)] : ℚ) / 2 * 100|
      ≤ 3/20 := by
  have heval : PostureAnalyzer.process_posture_data rawC2 = some
      ⟨⟨90, 80, ⟨50, 0, 0⟩, ⟨50, 0, 0⟩, 2⟩,
       [(0, ⟨[90], [], 1⟩), (1, ⟨[], [80], 1⟩)], 2⟩ := by
    have m1 : mean? [(90:ℚ)] = some 90 := by norm_num [mean?, div?]
    have m2 : mean? [(80:ℚ)] = some 80 := by norm_num [mean?, div?]
    have r90 : pyRound1 (90 : ℚ) = 90 := by
      rw [pyRound1_eq_lo (n := 900) (by norm_num) (by norm_num)]; norm_num
    have r80 : pyRound1 (80 : ℚ) = 80 := by
      rw [pyRound1_eq_lo (n := 800) (by norm_num) (by norm_num)]; norm_num
    have r50 : pyRound1 (50 : ℚ) = 50 := by
      rw [pyRound1_eq_lo (n := 500) (by norm_num) (by norm_num)]; norm_num
    have r0 : pyRound1 (0 : ℚ) = 0 := by
      rw [pyRound1_eq_lo (n := 0) (by norm_num) (by norm_num)]; norm_num
    have hQ : ∀ (x : ℚ) (l : List ℚ), (x :: l = []) = False := fun x l => by simp
    have hS : ∀ (x : Sample) (l : List Sample), (x :: l = []) = False := fun x l => by simp
    norm_num [PostureAnalyzer.process_posture_data, rawC2, PostureAnalyzer.processEntries,
      PostureAnalyzer._calculate_summary_stats, PostureAnalyzer.avgOrZero?, PostureAnalyzer.sumCats,
      PostureAnalyzer.postureCat?, PostureAnalyzer.eyeCat?, PostureAnalyzer.pct?,
      alistGet, alistMod, pyTrunc, mean?, div?, m1, m2, r90, r80, r50, r0, hQ, hS,
      Option.bind_eq_bind', Option.some_bind]
  refine ⟨heval, by norm_num, ?_⟩
  have := C2_breakdown_sum rawC2 _ heval (by norm_num)
  simpa using this

/-- C6: for posture samples (0, 90), (0, 10), (1, 85) and no eye-contact
samples, second 0 averages to 50 and is classified "bad" (the (0,0,1)
category triple is (good, okay, bad)), second 1 holds 85 and is "good"
((1,0,0)); the breakdown is good 50%, okay 0%, bad 50%, summing to
100. -/
theorem C6_two_bucket_breakdown :
    PostureAnalyzer.process_posture_data rawC6 = some
      ⟨⟨617/10, 0, ⟨50, 0, 50⟩, ⟨0, 0, 0⟩, 2⟩,
       [(0, ⟨[90, 10], [], 2⟩), (1, ⟨[85], [], 1⟩)], 2⟩ ∧
    mean? [(90 : ℚ), 10] = some 50 ∧
    PostureAnalyzer.postureCat? ⟨[90, 10], [], 2⟩ = some (0, 0, 1) ∧
    PostureAnalyzer.postureCat? ⟨[85], [], 1⟩ = some (1, 0, 0) ∧
    (50 : ℚ) + 0 + 50 = 100 := by
  have m1 : mean? [(90:ℚ), 10] = some 50 := by norm_num [mean?, div?]
  have m2 : mean? [(85:ℚ)] = some 85 := by norm_num [mean?, div?]
  have m3 : mean? [(90:ℚ), 10, 85] = some (185/3) := by norm_num [mean?, div?]
  have r1 : pyRound1 (185/3) = 617/10 := by
    rw [pyRound1_eq_hi (n := 616) (by norm_num) (by norm_num)]; norm_num
  have r2 : pyRound1 (50 : ℚ) = 50 := by
    rw [pyRound1_eq_lo (n := 500) (by norm_num) (by norm_num)]; norm_num
  have r0 : pyRound1 (0 : ℚ) = 0 := by
    rw [pyRound1_eq_lo (n := 0) (by norm_num) (by norm_num)]; norm_num
  have hQ : ∀ (x : ℚ) (l : List ℚ), (x :: l = []) = False := fun x l => by simp
  have hS : ∀ (x : Sample) (l : List Sample), (x :: l = []) = False := fun x l => by simp
  refine ⟨?_, m1, ?_, ?_, by norm_num⟩ <;>
    norm_num [PostureAnalyzer.process_posture_data, rawC6, PostureAnalyzer.processEntries,
      PostureAnalyzer._calculate_summary_stats, PostureAnalyzer.avgOrZero?, PostureAnalyzer.sumCats,
      PostureAnalyzer.postureCat?, PostureAnalyzer.eyeCat?, PostureAnalyzer.pct?,
      alistGet, alistMod, pyTrunc, mean?, div?, m1, m2, m3, r1, r2, r0, hQ, hS,
      Option.bind_eq_bind', Option.some_bind]

/-- C4: on a fresh session, one `analyze_frame` with
`{posture_score: 0, eye_contact_score: 0}` and no audio returns overall
score 50 (the still-analyzing default), alert level
"needs_improvement" (50 lies in the ≥ 40, < 60 band) and exactly the
suggestion list ["Start speaking to get real-time feedback..."]. -/
theorem C4_first_frame_zero_scores :
    (Realtime.analyze_frame (Realtime.start_session ⟨[], []⟩ "s" 0) "s" (some pdC4)
      none 5 0).2.overall_score = 50 ∧
    (Realtime.analyze_frame (Realtime.start_session ⟨[], []⟩ "s" 0) "s" (some pdC4)
      none 5 0).2.alert_level = "needs_improvement" ∧
    (Realtime.analyze_frame (Realtime.start_session ⟨[], []⟩ "s" 0) "s" (some pdC4)
      none 5 0).2.suggestions = ["Start speaking to get real-time feedback..."] := by
  refine ⟨?_, ?_, ?_⟩ <;>
    norm_num [Realtime.analyze_frame, Realtime.start_session, alistGet, alistSet, pdC4,
      Realtime._analyze_posture, Realtime._calculate_overall_score,
      Realtime._determine_alert_level, Realtime._generate_suggestions,
      Realtime._update_session_metrics, Realtime._calculate_trend,
      Realtime._categorize_posture, Realtime._categorize_eye_contact, pyTrunc,
      Realtime.posture_thresholds, Realtime.eye_contact_thresholds, wget]

/-- C9: for the words "go" "go" "go" starting at 0, 0.5 and 1.0 seconds
(ends 0.3, 0.8 and 1.3 — every gap 0.2 s, below the 2-second
threshold), the repetition analysis finds exactly one consecutive
sequence: word "go", count 3, spanning the first word's start (0) to
the third word's end (1.3). -/
theorem C9_go_sequence :
    SpeechAnalyzer._find_repetition_sequences wordsC9 = [⟨"go", 3, 0, 13/10, 13/10⟩] ∧
    wordsC9.map (fun w => w.start) = [0, 1/2, 1] ∧
    wordsC9.map (fun w => w.stop) = [3/10, 8/10, 13/10] := by
  refine ⟨?_, by norm_num [wordsC9], by norm_num [wordsC9]⟩
  have hgo : pyLower "go" = "go" := by decide
  norm_num [SpeechAnalyzer._find_repetition_sequences, SpeechAnalyzer.findSeqsAux,
    SpeechAnalyzer.runScan, wordsC9, hgo]

/-- C10: the words-per-minute sub-score is not monotone below the
140–160 band — `_calculate_wpm_score 99 = 99` while
`_calculate_wpm_score 100 = 60` and `_calculate_wpm_score 120 = 80`, a
discontinuous drop at wpm = 100. -/
theorem C10_wpm_score_non_monotone :
    _calculate_wpm_score 99 = 99 ∧
    _calculate_wpm_score 100 = 60 ∧
    _calculate_wpm_score 120 = 80 ∧
    _calculate_wpm_score 100 < _calculate_wpm_score 99 := by
  refine ⟨?_, ?_, ?_, ?_⟩ <;> norm_num [_calculate_wpm_score]

end TalkGenius
